import Mathlib

/-!
Verification of the Hire-mate resume/job matching core.

This file shallowly embeds the scoring and parsing functions of the backend
(`app/api/analysis.py`, `app/services/enhanced_resume_analyzer.py`,
`app/services/enhanced_resume_parser.py`) as executable Lean definitions and
proves or refutes the specification's claims about them.

Modelling conventions:
* Python floats are modelled as exact rationals (`ℚ`); Python `round` is
  modelled as exact round-half-to-even on rationals.
* Python sets are modelled as `Finset String` when only contents matter, and
  as first-occurrence-ordered deduplicated lists when the code observes an
  iteration order (CPython's set iteration order is unspecified).
* Python regular-expression searches are modelled by hand-written
  backtracking matchers (leftmost match, alternatives in source order,
  greedy quantifiers) over `List Char`.
* `datetime.utcnow()` is modelled by an explicit `now : MonthDate` parameter
  (the code only ever reads year and month of it).
-/

namespace HireMate

/-- `startsWithChars p cs` is true when `p` is a leading segment of `cs`. -/
def startsWithChars : List Char → List Char → Bool
  | [], _ => true
  | _ :: _, [] => false
  | p :: ps, c :: cs => p == c && startsWithChars ps cs

/-- Substring occurrence test on character lists (Python `pat in hay`). -/
def containsChars (pat : List Char) : List Char → Bool
  | [] => pat.isEmpty
  | c :: rest => startsWithChars pat (c :: rest) || containsChars pat rest

/-- Python `pat in hay` on strings. -/
def containsSub (hay pat : String) : Bool :=
  containsChars pat.toList hay.toList

/-- Python `str.lower()` on the ASCII texts handled here, implemented
character-wise over the underlying list (kernel-reducible, unlike the
position-based core `String` functions). -/
def lowerStr (s : String) : String :=
  String.mk (s.toList.map Char.toLower)

/-- Python `str.strip()`: drop leading and trailing whitespace. -/
def pyStrip (s : String) : String :=
  String.mk (((s.toList.dropWhile Char.isWhitespace).reverse.dropWhile
    Char.isWhitespace).reverse)

/-- Python `str.startswith`. -/
def startsWithStr (s pat : String) : Bool :=
  startsWithChars pat.toList s.toList

/-- Python `str.endswith`. -/
def endsWithStr (s pat : String) : Bool :=
  startsWithChars pat.toList.reverse s.toList.reverse

/-- Accumulating worker for whitespace tokenization. -/
def pySplitGo : List Char → List Char → List String
  | [], acc => if acc = [] then [] else [String.mk acc.reverse]
  | c :: rest, acc =>
    if c.isWhitespace then
      if acc = [] then pySplitGo rest []
      else String.mk acc.reverse :: pySplitGo rest []
    else pySplitGo rest (c :: acc)

/-- Python `str.split()` with no argument: tokenize on whitespace runs,
discarding empty tokens. -/
def pySplit (s : String) : List String :=
  pySplitGo s.toList []

/-- Split at every occurrence of a character satisfying `p`, keeping empty
pieces (Python `str.split(sep)` for one-character separators and
`re.split` on a plain character class). -/
def splitAnyGo (p : Char → Bool) : List Char → List Char → List String
  | [], acc => [String.mk acc.reverse]
  | c :: rest, acc =>
    if p c then String.mk acc.reverse :: splitAnyGo p rest []
    else splitAnyGo p rest (c :: acc)

/-- Split a string at each character satisfying `p`, keeping empty pieces. -/
def splitAny (p : Char → Bool) (s : String) : List String :=
  splitAnyGo p s.toList []

/-- Python `sep.join(pieces)`. -/
def joinSep (sep : String) : List String → String
  | [] => ""
  | x :: xs => xs.foldl (fun acc y => acc ++ sep ++ y) x

/-- Remove all trailing characters that belong to `cls` (Python `str.rstrip`). -/
def rstripChars (cls : List Char) (s : String) : String :=
  String.mk ((s.toList.reverse.dropWhile (fun c => c ∈ cls)).reverse)

/-- Python `str.count` for a single-character needle. -/
def countChar (s : String) (c : Char) : ℕ :=
  (s.toList.filter (fun x => x = c)).length

/-- Numeric value of a digit string (Python `int` on a `\d+` match). -/
def natOfDigits (cs : List Char) : ℕ :=
  cs.foldl (fun n c => 10 * n + (c.toNat - 48)) 0

/-- Deduplication keeping the first occurrence; the second argument collects
the elements already seen. -/
def dedupKeepFirstGo : List String → List String → List String
  | [], _ => []
  | x :: rest, seen =>
    if x ∈ seen then dedupKeepFirstGo rest seen
    else x :: dedupKeepFirstGo rest (x :: seen)

/-- Deduplicate a string list keeping first occurrences. -/
def dedupKeepFirst (l : List String) : List String :=
  dedupKeepFirstGo l []

/-- Python `round` on a rational: round half to even (banker's rounding). -/
def pyRound (q : ℚ) : ℤ :=
  if q - (⌊q⌋ : ℚ) < 1/2 then ⌊q⌋
  else if (1:ℚ)/2 < q - (⌊q⌋ : ℚ) then ⌊q⌋ + 1
  else if 2 ∣ ⌊q⌋ then ⌊q⌋ else ⌊q⌋ + 1

/-- Python `round(q, 1)`: round to one decimal digit, half to even. -/
def pyRound1 (q : ℚ) : ℚ :=
  (pyRound (q * 10) : ℚ) / 10

namespace Analysis

/-- Embeds `_calculate_match_score` (src/backend/app/api/analysis.py,
lines 347-364).  Skill sets are Python sets (`Finset String`); texts are the
raw strings.  The empty-`job_skills` guard returns 0 before any division. -/
def calculate_match_score (resume_skills job_skills : Finset String)
    (resume_text job_description : String) : ℚ :=
  if job_skills = ∅ then 0
  else
    let skill_match : ℚ :=
      ((resume_skills ∩ job_skills).card : ℚ) / (job_skills.card : ℚ) * 70
    let resume_words := (pySplit (lowerStr resume_text)).toFinset
    let job_words := (pySplit (lowerStr job_description)).toFinset
    let text_match : ℚ :=
      if job_words ≠ ∅ then
        ((resume_words ∩ job_words).card : ℚ) / (job_words.card : ℚ) * 30
      else 0
    min (skill_match + text_match) 100

/-- The match-score formula exactly as the specification states it: skill
overlap worth 70, plus (when the job's word set is non-empty) word overlap
worth 30, capped at 100, and 0 outright for an empty job skill set. -/
def specMatchScore (resume_skills job_skills : Finset String)
    (resume_text job_description : String) : ℚ :=
  if job_skills = ∅ then 0
  else
    min (((resume_skills ∩ job_skills).card : ℚ) / (job_skills.card : ℚ) * 70 +
      (if (pySplit (lowerStr job_description)).toFinset ≠ ∅ then
        (((pySplit (lowerStr resume_text)).toFinset ∩
            (pySplit (lowerStr job_description)).toFinset).card : ℚ) /
          (((pySplit (lowerStr job_description)).toFinset.card : ℚ)) * 30
      else 0)) 100

/-- Embeds the `skill_match_percentage` expression of `perform_analysis_match`
(src/backend/app/api/analysis.py, line 307):
`round((len(matching_skills) / len(job_skills)) * 100, 1) if job_skills else 0`. -/
def skill_match_percentage (resume_skills job_skills : Finset String) : ℚ :=
  if job_skills = ∅ then 0
  else pyRound1 (((resume_skills ∩ job_skills).card : ℚ) / (job_skills.card : ℚ) * 100)

/-- Embeds `_determine_fit_level` (src/backend/app/api/analysis.py,
lines 388-395), the three-band classifier used by `perform_analysis_match`. -/
def determine_fit_level (match_score : ℚ) : String :=
  if 80 ≤ match_score then "Great Fit"
  else if 60 ≤ match_score then "Possible Fit"
  else "Not Fit"

/-- Embeds `matching_skills = list(resume_skills & job_skills)`
(src/backend/app/api/analysis.py, line 289).  CPython's set iteration order is
unspecified; we fix first-occurrence order of the resume list, which is
immaterial for every set-level statement below. -/
def matching_skills (resume_skills job_skills : List String) : List String :=
  resume_skills.dedup.filter (fun s => s ∈ job_skills)

/-- Embeds `missing_skills = list(job_skills - resume_skills)`
(src/backend/app/api/analysis.py, line 288), before the top-10 truncation. -/
def missing_skills_full (resume_skills job_skills : List String) : List String :=
  job_skills.dedup.filter (fun s => s ∉ resume_skills)

/-- Embeds the `missing_skills` actually stored in the match results:
`missing_skills[:10]` (src/backend/app/api/analysis.py, line 301). -/
def returned_missing_skills (resume_skills job_skills : List String) : List String :=
  (missing_skills_full resume_skills job_skills).take 10

/-- Embeds `_calculate_ats_score` (src/backend/app/api/analysis.py,
lines 366-386): the ATS score attached to the match results is the fraction of
distinct lower-cased job-description tokens present among the resume tokens. -/
def calculate_ats_score (resume_text job_description : String) : ℚ :=
  let job_keywords := pySplit (lowerStr job_description)
  let resume_keywords := pySplit (lowerStr resume_text)
  if job_keywords = [] then 0
  else
    let keyword_matches := (job_keywords.toFinset.filter
      (fun k => k ∈ resume_keywords)).card
    let total_keywords := job_keywords.toFinset.card
    let ats_score : ℚ :=
      if 0 < total_keywords then (keyword_matches : ℚ) / (total_keywords : ℚ) * 100
      else 0
    min ats_score 100

/-- The attached ATS score written as one closed-form expression (used to
state what the code actually attaches, in the amended claim C6). -/
def specAttachedAts (resume_text job_description : String) : ℚ :=
  let jw := pySplit (lowerStr job_description)
  if jw = [] then 0
  else
    min (((jw.toFinset.filter (fun k => k ∈ pySplit (lowerStr resume_text))).card : ℚ) /
      (jw.toFinset.card : ℚ) * 100) 100

end Analysis

/-- C1: for every resume skill set, job skill set and pair of texts, the
computed match score equals the spec formula — skill overlap over `|J|` worth
70 plus (when the job word set is non-empty) word overlap worth 30, capped at
100 — and for an empty job skill set both the match score and the
skill-match percentage are 0, via the guarded branches (total functions,
no exception). -/
theorem match_score_follows_spec (R J : Finset String) (rt jt : String) :
    Analysis.calculate_match_score R J rt jt = Analysis.specMatchScore R J rt jt ∧
    (J = ∅ → Analysis.calculate_match_score R J rt jt = 0 ∧
      Analysis.skill_match_percentage R J = 0) := by
  constructor
  · rfl
  · intro hJ
    simp [Analysis.calculate_match_score, Analysis.skill_match_percentage, hJ]

/-- Witness for `match_score_follows_spec` at the concrete empty job. -/
theorem match_score_follows_spec_witness :
    Analysis.calculate_match_score {"python"} ∅ "a" "b" = 0 ∧
    Analysis.skill_match_percentage {"python"} ∅ = 0 :=
  (match_score_follows_spec {"python"} ∅ "a" "b").2 rfl

/-- C3: the fit classifier attached to the match results yields "Great Fit"
exactly when the score is at least 80, "Possible Fit" exactly on [60, 80),
"Not Fit" exactly below 60, and never any other label. -/
theorem fit_level_bands (s : ℚ) :
    (Analysis.determine_fit_level s = "Great Fit" ↔ 80 ≤ s) ∧
    (Analysis.determine_fit_level s = "Possible Fit" ↔ 60 ≤ s ∧ s < 80) ∧
    (Analysis.determine_fit_level s = "Not Fit" ↔ s < 60) ∧
    (Analysis.determine_fit_level s = "Great Fit" ∨
      Analysis.determine_fit_level s = "Possible Fit" ∨
      Analysis.determine_fit_level s = "Not Fit") := by
  unfold Analysis.determine_fit_level
  split_ifs with h1 h2
  all_goals refine ⟨?_, ?_, ?_, ?_⟩ <;> simp_all <;> linarith

/-- C2 (counterexample): with eleven distinct missing skills, the
`missing_skills[:10]` list actually stored in the match results cannot cover
the job skill set, so the claimed union invariant fails on the returned
MatchResult (under every possible set-iteration order, since only the
cardinality of the truncated list matters). -/
theorem skills_union_counterexample :
    ¬ ((Analysis.returned_missing_skills []
          ["a","b","c","d","e","f","g","h","i","j","k"]).toFinset ∪
        (Analysis.matching_skills []
          ["a","b","c","d","e","f","g","h","i","j","k"]).toFinset =
        (["a","b","c","d","e","f","g","h","i","j","k"] : List String).toFinset) := by
  decide

/-- C2 (amended): the stored matching skills are exactly job ∩ resume and the
pre-truncation missing skills are exactly job − resume; the stored missing
skills (truncated to ten) are always disjoint from the matching skills, and
their union recovers the job skill set whenever at most ten skills are
missing. -/
theorem skills_partition (resume job : List String) :
    (Analysis.matching_skills resume job).toFinset =
      job.toFinset ∩ resume.toFinset ∧
    (Analysis.missing_skills_full resume job).toFinset =
      job.toFinset \ resume.toFinset ∧
    Disjoint (Analysis.returned_missing_skills resume job).toFinset
      (Analysis.matching_skills resume job).toFinset ∧
    ((Analysis.missing_skills_full resume job).length ≤ 10 →
      (Analysis.returned_missing_skills resume job).toFinset ∪
        (Analysis.matching_skills resume job).toFinset = job.toFinset) := by
  refine ⟨?_, ?_, ?_, ?_⟩
  · ext a
    simp [Analysis.matching_skills]
    tauto
  · ext a
    simp [Analysis.missing_skills_full]
  · rw [Finset.disjoint_left]
    intro a ha hb
    rw [List.mem_toFinset] at ha hb
    have ha2 := List.mem_of_mem_take
      (ha : a ∈ (Analysis.missing_skills_full resume job).take 10)
    simp [Analysis.missing_skills_full] at ha2
    simp [Analysis.matching_skills] at hb
    tauto
  · intro hlen
    have htake : Analysis.returned_missing_skills resume job =
        Analysis.missing_skills_full resume job := by
      unfold Analysis.returned_missing_skills
      exact List.take_of_length_le hlen
    rw [htake]
    ext a
    simp [Analysis.missing_skills_full, Analysis.matching_skills]
    constructor
    · rintro (⟨h1, _⟩ | ⟨_, h2⟩)
      · exact h1
      · exact h2
    · intro hj
      by_cases hr : a ∈ resume
      · exact Or.inr ⟨hr, hj⟩
      · exact Or.inl ⟨hj, hr⟩

namespace Analyzer

/-- ASCII fragment of Python's regex `\w` class. -/
def isWordChar (c : Char) : Bool := c.isAlphanum || c = '_'

/-- Collapse every run of characters satisfying `p` into a single `repl`
character (Python `re.sub` of a one-character-class `+` pattern).  The first
argument tracks whether the previous character was part of a run. -/
def collapseRuns (p : Char → Bool) (repl : Char) : Bool → List Char → List Char
  | _, [] => []
  | prevRun, c :: rest =>
    if p c then
      if prevRun then collapseRuns p repl true rest
      else repl :: collapseRuns p repl true rest
    else c :: collapseRuns p repl false rest

/-- Characters kept by the analyzer's cleaning class
`[^\w\s\-\.\,\;\:\!\?\(\)\[\]\x7b\x7d]` (brace characters written by code). -/
def atsKeepChar (c : Char) : Bool :=
  isWordChar c || c.isWhitespace ||
    (['-', '.', ',', ';', ':', '!', '?', '(', ')', '[', ']'] : List Char).contains c ||
    c = Char.ofNat 123 || c = Char.ofNat 125

/-- Embeds the analyzer's `_clean_text`
(src/backend/app/services/enhanced_resume_analyzer.py, lines 497-508). -/
def clean_text (text : String) : String :=
  if text = "" then ""
  else
    let t1 := collapseRuns Char.isWhitespace ' ' false text.toList
    let t2 := t1.map (fun c => if atsKeepChar c then c else ' ')
    let t3 := collapseRuns (fun c => c = '\n') ' ' false t2
    lowerStr (pyStrip (String.mk t3))

/-- `critical_keywords["technical_skills"]`
(enhanced_resume_analyzer.py, lines 114-146). -/
def criticalTechnicalSkills : List String :=
  ["python", "javascript", "java", "react", "angular", "vue", "node.js", "sql",
   "aws", "docker", "kubernetes",
   "machine learning", "ai", "data science", "cloud computing", "devops",
   "agile", "scrum", "git",
   "rest api", "microservices", "ci/cd", "terraform", "jenkins", "mongodb",
   "postgresql", "redis",
   "photoshop", "illustrator", "indesign", "figma", "sketch", "autocad",
   "solidworks", "maya", "blender",
   "after effects", "premiere pro", "final cut pro", "motion graphics",
   "3d modeling", "animation",
   "excel", "powerpoint", "word", "outlook", "sharepoint", "teams",
   "salesforce", "hubspot", "quickbooks",
   "sap", "oracle", "tableau", "power bi", "qlik", "looker", "jira",
   "confluence", "slack", "trello",
   "epic", "cerner", "meditech", "allscripts", "emr", "ehr", "pacs",
   "medical devices", "laboratory equipment",
   "diagnostic tools", "imaging", "radiology", "pathology",
   "clinical research", "hipaa compliance",
   "matlab", "labview", "plc", "scada", "cnc", "cad", "fem analysis",
   "lean manufacturing", "six sigma",
   "quality control", "process improvement", "iso standards",
   "fda regulations", "gmp", "haccp",
   "bloomberg", "financial modeling", "risk management", "trading platforms",
   "derivatives", "forex",
   "portfolio management", "audit", "compliance", "gaap", "ifrs",
   "tax preparation", "budgeting",
   "litigation", "contract law", "intellectual property", "corporate law",
   "family law", "criminal law",
   "real estate law", "tax law", "employment law", "immigration law",
   "legal research", "case management",
   "curriculum development", "lesson planning", "assessment",
   "classroom management", "special education",
   "esl", "stem", "early childhood", "higher education",
   "learning management systems", "edtech",
   "digital marketing", "seo", "sem", "social media", "content marketing",
   "brand management",
   "market research", "analytics", "ppc", "email marketing",
   "influencer marketing", "crm",
   "brand identity", "visual communication", "user experience",
   "user interface", "typography",
   "color theory", "composition", "storytelling", "copywriting",
   "content creation", "video production"]

/-- `critical_keywords["soft_skills"]` (lines 147-153). -/
def criticalSoftSkills : List String :=
  ["leadership", "communication", "teamwork", "problem solving",
   "project management", "collaboration",
   "time management", "critical thinking", "creativity", "adaptability",
   "mentoring", "stakeholder management",
   "emotional intelligence", "conflict resolution", "negotiation",
   "presentation", "public speaking",
   "customer service", "sales", "coaching", "facilitation",
   "decision making", "strategic thinking",
   "innovation", "resilience", "cultural awareness", "flexibility",
   "organization", "attention to detail"]

/-- `critical_keywords["experience_levels"]` (lines 154-158). -/
def criticalExperienceLevels : List String :=
  ["entry level", "junior", "mid level", "senior", "lead", "principal",
   "architect", "manager", "director",
   "vp", "c-level", "executive", "associate", "specialist", "coordinator",
   "supervisor", "team lead",
   "consultant", "advisor", "expert", "guru", "ninja", "rockstar",
   "evangelist", "ambassador"]

/-- Stable insertion into a count-descending list: an element goes after all
entries with an equal or larger count, mirroring Python's stable
`sorted(..., key=count, reverse=True)`. -/
def insertByCountDesc (x : String × ℕ) : List (String × ℕ) → List (String × ℕ)
  | [] => [x]
  | y :: rest => if y.2 < x.2 then x :: y :: rest else y :: insertByCountDesc x rest

/-- Stable sort by descending count (insertion sort, processing the list
left to right so ties keep their original order). -/
def sortByCountDesc (l : List (String × ℕ)) : List (String × ℕ) :=
  l.foldl (fun acc x => insertByCountDesc x acc) []

/-- Word-frequency table in first-occurrence order (Python dict insertion
order) used by `_extract_job_keywords`. -/
def wordFreq (ws : List String) : List (String × ℕ) :=
  ws.foldl (fun acc w =>
    if acc.any (fun kv => kv.1 = w) then
      acc.map (fun kv => if kv.1 = w then (kv.1, kv.2 + 1) else kv)
    else acc ++ [(w, 1)]) []

/-- Embeds `_extract_job_keywords` (enhanced_resume_analyzer.py, lines
510-541): dictionary skills found as substrings, plus the twenty most
frequent alphabetic words longer than three characters.  The trailing
`list(set(keywords))` has unspecified CPython ordering; it is modelled as
first-occurrence deduplication. -/
def extract_job_keywords (job_text : String) : List String :=
  let keywords :=
    (criticalTechnicalSkills.filter
      (fun s => containsSub job_text (lowerStr s))).map lowerStr ++
    (criticalSoftSkills.filter
      (fun s => containsSub job_text (lowerStr s))).map lowerStr ++
    (criticalExperienceLevels.filter
      (fun s => containsSub job_text (lowerStr s))).map lowerStr
  let words := (pySplit job_text).filter
    (fun w => 3 < w.length ∧ w.toList.all Char.isAlpha)
  let sorted := sortByCountDesc (wordFreq words)
  let top := ((sorted.take 20).map Prod.fst)
  let keywords := top.foldl (fun ks w => if w ∈ ks then ks else ks ++ [w]) keywords
  dedupKeepFirst keywords

/-- The `density` expression local to `_evaluate_keyword_density`: found
keywords over resume word count, as a percentage. -/
def kdDensity (resume_text : String) (job_keywords : List String) : ℚ :=
  ((job_keywords.filter (fun k => containsSub resume_text k)).length : ℚ) /
    ((pySplit resume_text).length : ℚ) * 100

/-- Embeds `_evaluate_keyword_density` (enhanced_resume_analyzer.py, lines
610-633): 100 inside the 1.5-3.5 band, `max 50 (100 - 20·|d-2.5|)` for other
positive densities, 0 otherwise. -/
def evaluate_keyword_density (resume_text : String) (job_keywords : List String) : ℚ :=
  if job_keywords = [] then 0
  else if 0 < (pySplit resume_text).length then
    let density := kdDensity resume_text job_keywords
    if 3/2 ≤ density ∧ density ≤ 7/2 then 100
    else if 0 < density then max 50 (100 - |density - 5/2| * 20)
    else 0
  else 0

/-- Count of maximal runs of at least `k` consecutive characters satisfying
`p`; the first numeric argument is the length of the current run. -/
def countLongRunsGo (p : Char → Bool) (k : ℕ) : ℕ → List Char → ℕ
  | run, [] => if k ≤ run then 1 else 0
  | run, c :: rest =>
    if p c then countLongRunsGo p k (run + 1) rest
    else (if k ≤ run then 1 else 0) + countLongRunsGo p k 0 rest

/-- Python `len(re.findall(r"\s{3,}", s))` and friends: number of maximal
`p`-runs of length at least `k`. -/
def countLongRuns (p : Char → Bool) (k : ℕ) (s : String) : ℕ :=
  countLongRunsGo p k 0 s.toList

/-- Embeds `_evaluate_formatting` (lines 635-654): deduct 5 per non-ASCII
character, 3 per run of three or more whitespace characters, 20 when special
characters exceed a tenth of the text length; floor 0. -/
def evaluate_formatting (resume_text : String) : ℚ :=
  let problematic := (resume_text.toList.filter (fun c => 127 < c.toNat)).length
  let multiple_spaces := countLongRuns Char.isWhitespace 3 resume_text
  let special := (resume_text.toList.filter
    (fun c => ¬ (isWordChar c || c.isWhitespace))).length
  max 0 (100 - 5 * (problematic : ℚ) - 3 * (multiple_spaces : ℚ) -
    (if (resume_text.length : ℚ) * (1/10) < (special : ℚ) then 20 else 0))

/-- The alternation of `\b(?:experience|education|skills|projects|certifications)\b`. -/
def structureMarkerWords : List String :=
  ["experience", "education", "skills", "projects", "certifications"]

/-- Consume `pat` as a leading segment of `cs`, returning the remainder. -/
def dropPrefixChars : List Char → List Char → Option (List Char)
  | [], cs => some cs
  | _ :: _, [] => none
  | p :: ps, c :: cs => if p = c then dropPrefixChars ps cs else none

/-- Try to match one section-marker word at the current position, with word
boundaries on both sides; returns the word's last character and the rest. -/
def markerAt (prev : Option Char) (cs : List Char) : Option (Char × List Char) :=
  if (match prev with | some p => isWordChar p | none => false) then none
  else structureMarkerWords.findSome? (fun w =>
    match dropPrefixChars w.toList cs with
    | some rest =>
      match rest with
      | [] => some (w.toList.getLastD 'x', rest)
      | c :: _ => if isWordChar c then none else some (w.toList.getLastD 'x', rest)
    | none => none)

/-- Count non-overlapping marker matches, scanning left to right. -/
def countMarkersGo : ℕ → Option Char → List Char → ℕ
  | 0, _, _ => 0
  | fuel + 1, prev, cs =>
    match markerAt prev cs with
    | some (last, rest) => 1 + countMarkersGo fuel (some last) rest
    | none =>
      match cs with
      | [] => 0
      | c :: rest => countMarkersGo fuel (some c) rest

/-- Python `len(re.findall(r"\b(?:experience|education|skills|projects|certifications)\b", s))`. -/
def count_section_markers (s : String) : ℕ :=
  countMarkersGo (s.toList.length + 1) none s.toList

/-- Embeds `_evaluate_structure` (lines 656-671). -/
def evaluate_structure (resume_text : String) : ℚ :=
  let low := lowerStr resume_text
  let missing := (["experience", "education", "skills"].filter
    (fun sec => ¬ containsSub low sec)).length
  max 0 (100 - 20 * (missing : ℚ) -
    (if count_section_markers low < 3 then 15 else 0))

/-- Embeds `_evaluate_clarity` (lines 673-688). -/
def evaluate_clarity (resume_text : String) : ℚ :=
  let bullets := countChar resume_text '•' + countChar resume_text '-' +
    countChar resume_text '*'
  let low := lowerStr resume_text
  let verbs := (["developed", "implemented", "managed", "created", "designed",
    "led", "improved", "achieved"].filter (fun v => containsSub low v)).length
  max 0 (100 - (if bullets < 5 then 20 else 0) - (if verbs < 3 then 15 else 0))

/-- Embeds the analyzer's `_calculate_ats_score` (lines 590-608): weighted
combination of the four sub-scores, zero when no job keywords were extracted,
capped at 100.  `job_text` and `resume_keywords` are accepted but unused,
exactly as in the source. -/
def analyzer_calculate_ats_score (resume_text job_text : String)
    (resume_keywords job_keywords : List String) : ℚ :=
  if job_keywords = [] then 0
  else
    min (evaluate_keyword_density resume_text job_keywords * (35/100) +
      evaluate_formatting resume_text * (30/100) +
      evaluate_structure resume_text * (20/100) +
      evaluate_clarity resume_text * (15/100)) 100

/-- The ATS formula exactly as claim C6 states it: a straight weighted
0.35/0.30/0.20/0.15 sum of the four sub-scores, evaluated along the
analyzer's rule-based flow (cleaned texts, extracted job keywords). -/
def claimedAtsScore (resume_text job_text : String) : ℚ :=
  let rt := clean_text resume_text
  let kws := extract_job_keywords (clean_text job_text)
  (35/100) * evaluate_keyword_density rt kws +
    (30/100) * evaluate_formatting rt +
    (20/100) * evaluate_structure rt +
    (15/100) * evaluate_clarity rt

end Analyzer

/-- Witness for `skills_partition` at a concrete input with one missing
skill, discharging the at-most-ten hypothesis. -/
theorem skills_partition_witness :
    (Analysis.missing_skills_full ["python"] ["python", "aws"]).length ≤ 10 ∧
    (Analysis.returned_missing_skills ["python"] ["python", "aws"]).toFinset ∪
      (Analysis.matching_skills ["python"] ["python", "aws"]).toFinset =
      (["python", "aws"] : List String).toFinset :=
  ⟨by decide, (skills_partition ["python"] ["python", "aws"]).2.2.2 (by decide)⟩

namespace Parser

/-- A backtracking matcher: maps an input suffix to the list of possible
remainders after one match of the pattern piece, in backtracking priority
order (head = the alternative the Python regex engine commits to first). -/
abbrev Matcher := List Char → List (List Char)

/-- Match one character of a regex character class. -/
def mCls (p : Char → Bool) : Matcher := fun cs =>
  match cs with
  | [] => []
  | c :: rest => if p c then [rest] else []

/-- Match a literal string. -/
def mLit (pat : String) : Matcher := fun cs =>
  match Analyzer.dropPrefixChars pat.toList cs with
  | some rest => [rest]
  | none => []

/-- Concatenation of pattern pieces, preserving backtracking order. -/
def mSeq (a b : Matcher) : Matcher := fun cs => (a cs).flatMap b

/-- Alternation, preferring earlier alternatives as the regex engine does. -/
def mAlt (ms : List Matcher) : Matcher := fun cs => ms.flatMap (fun m => m cs)

/-- Greedy `?`: consuming the piece is preferred. -/
def mOpt (a : Matcher) : Matcher := fun cs => a cs ++ [cs]

/-- Greedy `*` with explicit fuel; all uses below apply it to pieces that
consume at least one character, so fuel = input length suffices. -/
def mStarGo (a : Matcher) : ℕ → Matcher
  | 0 => fun cs => [cs]
  | fuel + 1 => fun cs => ((a cs).flatMap (mStarGo a fuel)) ++ [cs]

/-- Greedy `*`. -/
def mStar (a : Matcher) : Matcher := fun cs => mStarGo a cs.length cs

/-- Greedy `+`. -/
def mPlus (a : Matcher) : Matcher := mSeq a (mStar a)

/-- Exactly `n` repetitions. -/
def mRep (a : Matcher) : ℕ → Matcher
  | 0 => fun cs => [cs]
  | n + 1 => mSeq a (mRep a n)

/-- One regex `\d`. -/
def digitM : Matcher := mCls Char.isDigit

/-- One regex `\s`. -/
def wsM : Matcher := mCls Char.isWhitespace

/-- `\d{4}`. -/
def d4M : Matcher := mRep digitM 4

/-- `\d{1,2}`, greedy: two digits preferred. -/
def d12M : Matcher := mAlt [mSeq digitM digitM, digitM]

/-- `[a-z]`. -/
def lowerAlphaM : Matcher := mCls (fun c => decide ('a' ≤ c) && decide (c ≤ 'z'))

/-- The month-name alternation of `DATE_SPAN_RE`, in source order. -/
def monthLitM : Matcher :=
  mAlt (["Jan", "Feb", "Mar", "Apr", "May", "Jun", "Jul", "Aug", "Sep", "Sept",
    "Oct", "Nov", "Dec"].map mLit)

/-- `(?:Jan|...|Dec)[a-z]*\.?\s+\d{4}`. -/
def monthDateM : Matcher :=
  mSeq monthLitM (mSeq (mStar lowerAlphaM) (mSeq (mOpt (mLit ".")) (mSeq (mPlus wsM) d4M)))

/-- `\d{1,2}/\d{4}`. -/
def slashDateM : Matcher := mSeq d12M (mSeq (mLit "/") d4M)

/-- The start alternatives of `DATE_SPAN_RE`, in source order. -/
def spanStartM : Matcher := mAlt [monthDateM, slashDateM, d4M]

/-- The present-sentinel alternation of `DATE_SPAN_RE`, in source order. -/
def presentM : Matcher :=
  mAlt (["Present", "Now", "Current", "present", "now", "current"].map mLit)

/-- The end alternatives of `DATE_SPAN_RE`, in source order. -/
def spanEndM : Matcher := mAlt [presentM, monthDateM, slashDateM, d4M]

/-- `\s*(?:[-–—]|to)\s*`. -/
def spanSepM : Matcher :=
  mSeq (mStar wsM)
    (mSeq (mAlt [mCls (fun c => (['-', '–', '—'] : List Char).contains c), mLit "to"])
      (mStar wsM))

/-- The prefix of `cs` consumed to reach remainder `r`. -/
def consumed (cs r : List Char) : String :=
  String.mk (cs.take (cs.length - r.length))

/-- Try `DATE_SPAN_RE` at the current position, capturing the start and end
groups of the first successful backtracking branch. -/
def dateSpanAt (cs : List Char) : Option (String × String) :=
  (spanStartM cs).findSome? (fun r1 =>
    (spanSepM r1).findSome? (fun r2 =>
      ((spanEndM r2).head?).map (fun r3 => (consumed cs r1, consumed r2 r3))))

/-- Scan for the leftmost `DATE_SPAN_RE` match. -/
def dateSpanSearchGo : List Char → Option (String × String)
  | [] => none
  | c :: rest =>
    match dateSpanAt (c :: rest) with
    | some x => some x
    | none => dateSpanSearchGo rest

/-- `DATE_SPAN_RE.search(s)` with the `start`/`end` capture groups. -/
def dateSpanSearch (s : String) : Option (String × String) :=
  dateSpanSearchGo s.toList

/-- A year-month pair, standing in for Python `datetime(year, month, 1)` and
for the current time read by `datetime.utcnow()`. -/
structure MonthDate where
  year : ℤ
  month : ℤ
deriving DecidableEq

/-- `re.fullmatch(r"\d{4}", s)`. -/
def isDigits4 (cs : List Char) : Bool :=
  cs.length == 4 && cs.all Char.isDigit

/-- `re.fullmatch(r"(\d{1,2})/(\d{4})", s)`, returning the numeric groups:
the digits before the first slash and the four digits after it. -/
def mmSlashYyyy (cs : List Char) : Option (ℕ × ℕ) :=
  let pre := cs.takeWhile (fun c => c != '/')
  match cs.dropWhile (fun c => c != '/') with
  | '/' :: post =>
    if (pre.length = 1 ∨ pre.length = 2) ∧ pre.all Char.isDigit ∧
        post.length = 4 ∧ post.all Char.isDigit then
      some (natOfDigits pre, natOfDigits post)
    else none
  | _ => none

/-- The `MONTHS` lookup table (enhanced_resume_parser.py, lines 102-106). -/
def monthsTable : List (String × ℤ) :=
  [("jan", 1), ("january", 1), ("feb", 2), ("february", 2), ("mar", 3), ("march", 3),
   ("apr", 4), ("april", 4), ("may", 5), ("jun", 6), ("june", 6), ("jul", 7),
   ("july", 7), ("aug", 8), ("august", 8), ("sep", 9), ("sept", 9),
   ("september", 9), ("oct", 10), ("october", 10), ("nov", 11), ("november", 11),
   ("dec", 12), ("december", 12)]

/-- `MONTHS.get(name)`. -/
def monthsLookup (s : String) : Option ℤ :=
  (monthsTable.find? (fun kv => kv.1 = s)).map Prod.snd

/-- Tail `\.?\s+(\d{4})` of the month-name date pattern: optionally consume a
dot (greedily), then at least one whitespace character, then capture the next
four digits. -/
def dotWsYear (rest : List Char) : Option ℕ :=
  let cand := match rest with
    | '.' :: r2 => [r2, rest]
    | _ => [rest]
  cand.findSome? (fun r2 =>
    let ws := r2.takeWhile Char.isWhitespace
    let r3 := r2.dropWhile Char.isWhitespace
    if ws.length = 0 then none
    else
      let digits := r3.take 4
      if digits.length = 4 ∧ digits.all Char.isDigit then some (natOfDigits digits)
      else none)

/-- `re.match(r"([A-Za-z]{3,9})\.?\s+(\d{4})", s)`: the leading letter run is
tried greedily from nine characters (or the run length) down to three. -/
def monYearMatch (cs : List Char) : Option (String × ℕ) :=
  let letters := (cs.takeWhile Char.isAlpha).length
  (((List.range (min 9 letters + 1)).reverse).filter (fun n => 3 ≤ n)).findSome?
    (fun n =>
      match dotWsYear (cs.drop n) with
      | some y => some (String.mk (cs.take n), y)
      | none => none)

/-- CPython `datetime(year, month, 1)`: validates `1 ≤ year ≤ 9999` and
`1 ≤ month ≤ 12`, raising `ValueError` (the `Except.error` case) outside
those ranges. -/
def mkDatetime (y m : ℤ) : Except Unit MonthDate :=
  if 1 ≤ y ∧ y ≤ 9999 ∧ 1 ≤ m ∧ m ≤ 12 then Except.ok ⟨y, m⟩
  else Except.error ()

/-- Embeds `_parse_month_year` (enhanced_resume_parser.py, lines 195-213).
The `MM/YYYY` branch clamps the month into [1, 12].  `Except.error` models a
`ValueError` raised by the `datetime` constructor (a matched year of 0000),
which propagates out of `_parse_month_year` since the function installs no
handler; `Except.ok none` is Python's `return None`. -/
def parse_month_year (s : String) : Except Unit (Option MonthDate) :=
  if s = "" then Except.ok none
  else
    let t := pyStrip s
    if isDigits4 t.toList then
      (mkDatetime (natOfDigits t.toList : ℤ) 1).map some
    else
      match mmSlashYyyy t.toList with
      | some (mm, y) => (mkDatetime (y : ℤ) (max 1 (min 12 (mm : ℤ)))).map some
      | none =>
        match monYearMatch t.toList with
        | some (mon, y) =>
          match monthsLookup (lowerStr mon) with
          | some m => (mkDatetime (y : ℤ) m).map some
          | none => Except.ok none
        | none => Except.ok none

/-- Embeds `_months_between` (lines 215-219); `now` stands for
`datetime.utcnow()`, which the code substitutes for a missing end date. -/
def months_between (start : Option MonthDate) (stop : Option MonthDate)
    (now : MonthDate) : ℤ :=
  match start with
  | none => 0
  | some s =>
    let e := stop.getD now
    max 0 ((e.year - s.year) * 12 + (e.month - s.month))

/-- Worker for `_collect_blocks`; the accumulator holds the current block in
reverse order. -/
def collectBlocksGo : List String → List String → List (List String)
  | [], cur => if cur = [] then [] else [cur.reverse]
  | ln :: rest, cur =>
    if pyStrip ln = "" then
      if cur = [] then collectBlocksGo rest []
      else cur.reverse :: collectBlocksGo rest []
    else collectBlocksGo rest (ln :: cur)

/-- Embeds `_collect_blocks` (lines 221-233): blank lines delimit blocks. -/
def collect_blocks (lines : List String) : List (List String) :=
  collectBlocksGo lines []

/-- Embeds `_parse_bullets` (lines 235-244): strip lines, drop empties and
lone dashes, and remove a leading "- " bullet marker. -/
def parse_bullets (lines : List String) : List String :=
  lines.foldr (fun ln out =>
    let s := pyStrip ln
    if s = "" ∨ s = "-" ∨ s = "–" ∨ s = "—" then out
    else if startsWithStr s "- " then pyStrip (String.mk (s.toList.drop 2)) :: out
    else s :: out) []

/-- Worker for `re.split(r"\s*[D]\s*", s)`: a delimiter occurrence absorbs
the whitespace around it.  Fuel equals the input length; every step consumes
at least one character, so the zero-fuel fallback is unreachable. -/
def splitDelimGo (delim : Char → Bool) : ℕ → List Char → List Char → List String
  | _, [], acc => [String.mk acc.reverse]
  | 0, cs, acc => [String.mk (acc.reverse ++ cs)]
  | fuel + 1, c :: rest, acc =>
    if delim c then
      String.mk ((acc.dropWhile Char.isWhitespace).reverse) ::
        splitDelimGo delim fuel (rest.dropWhile Char.isWhitespace) []
    else splitDelimGo delim fuel rest (c :: acc)

/-- `re.split` on a one-character delimiter class with `\s*` on both sides. -/
def splitDelim (delim : Char → Bool) (s : String) : List String :=
  splitDelimGo delim s.toList.length s.toList []

/-- Experience record (mirrors the parser's `Experience` output dict). -/
structure ExperienceEntry where
  title : Option String
  company : Option String
  location : Option String
  start_date : Option String
  end_date : Option String
  duration : Option String
  description : List String
deriving DecidableEq

/-- Python `parts[i].strip() or None`. -/
def strOrNone (s : String) : Option String :=
  if pyStrip s = "" then none else some (pyStrip s)

/-- Section maps as key/line-list pairs in insertion order (Python dict). -/
abbrev Sections := List (String × List String)

/-- `sections.get(k, [])`. -/
def sectionsGet (m : Sections) (k : String) : List String :=
  ((m.find? (fun kv => kv.1 = k)).map Prod.snd).getD []

/-- `k in sections`. -/
def sectionsHasKey (m : Sections) (k : String) : Bool :=
  m.any (fun kv => kv.1 = k)

/-- `re.split(r"\s*[|\-–—,]\s*", hdr)` of `_extract_experience`. -/
def headerParts (hdr : String) : List String :=
  splitDelim (fun c => (['|', '-', '–', '—', ','] : List Char).contains c) hdr

/-- Title/company/location resolution for one experience block
(`_extract_experience`, lines 394-410): parse the first line, and shift to
the second line when the detected title contains the date span. -/
def expHeaderFields (b : List String) : Option String × Option String × Option String :=
  match b with
  | [] => (none, none, none)
  | hdr :: rest =>
    let parts := headerParts hdr
    let title := match parts.head? with
      | some p => strOrNone p
      | none => none
    let company := match parts.get? 1 with
      | some p => strOrNone p
      | none => none
    let loc := match parts.get? 2 with
      | some p => strOrNone p
      | none => none
    match title with
    | some t =>
      if (dateSpanSearch t).isSome ∧ rest ≠ [] then
        let hdr2 := (rest.head?).getD ""
        let parts2 := headerParts hdr2
        let title2 := match parts2.head? with
          | some p => some (pyStrip p)
          | none => none
        let company2 := match parts2.get? 1 with
          | some p => some (pyStrip p)
          | none => company
        let loc2 := match parts2.get? 2 with
          | some p => some (pyStrip p)
          | none => loc
        (title2, company2, loc2)
      else (some t, company, loc)
    | none => (none, company, loc)

/-- Build one experience entry from a block (`_extract_experience`,
lines 386-421).  The date span is searched in the space-joined block text and
the description keeps every non-header line, the date line included. -/
def expFromBlock (b : List String) : ExperienceEntry :=
  let m := dateSpanSearch (joinSep " " b)
  let tcl := expHeaderFields b
  { title := tcl.1
    company := tcl.2.1
    location := tcl.2.2
    start_date := m.map Prod.fst
    end_date := m.map Prod.snd
    duration := none
    description := parse_bullets (b.drop 1) }

/-- Embeds `_extract_experience` (lines 380-422). -/
def extract_experience (sections : Sections) : List ExperienceEntry :=
  let lines := sectionsGet sections "experience"
  if lines = [] then []
  else (collect_blocks lines).map expFromBlock

/-- Python `str.upper()` on ASCII text. -/
def upperStr (s : String) : String :=
  String.mk (s.toList.map Char.toUpper)

/-- Python truthiness of an optional string: `None` and `""` are falsy. -/
def truthy (o : Option String) : Bool :=
  match o with
  | some s => s ≠ ""
  | none => false

/-- Case-insensitive first-occurrence deduplication (explicit `seen` loops in
the source); the second argument holds the lower-cased keys already seen. -/
def dedupCIGo : List String → List String → List String
  | [], _ => []
  | x :: rest, seen =>
    if lowerStr x ∈ seen then dedupCIGo rest seen
    else x :: dedupCIGo rest (lowerStr x :: seen)

/-- Deduplicate preserving order, comparing lower-cased values. -/
def dedupCI (l : List String) : List String :=
  dedupCIGo l []

/-- The `SECTION_ALIASES` table (enhanced_resume_parser.py, lines 133-162),
keys in source order. -/
def sectionAliases : List (String × List String) :=
  [("summary", ["summary", "objective", "profile", "professional profile",
    "about", "highlights", "career summary", "professional summary"]),
   ("skills", ["skills", "technical skills", "core skills", "competencies",
    "strengths", "technical competencies", "areas of expertise", "expertise",
    "capabilities", "key skills", "core competencies"]),
   ("experience", ["experience", "work experience", "professional experience",
    "employment history", "work history", "relevant experience",
    "professional history", "career history", "industry experience",
    "volunteer experience", "volunteering"]),
   ("education", ["education", "academic background", "academics",
    "education & training", "training", "coursework", "courses"]),
   ("projects", ["projects", "personal projects", "selected projects",
    "notable projects", "portfolio", "case studies", "engagements"]),
   ("certifications", ["certifications", "licenses",
    "licenses & certifications", "licences & certifications", "licences",
    "licenses and certifications"]),
   ("languages", ["languages", "language proficiency"]),
   ("awards", ["awards", "honors", "honours", "achievements", "recognition",
    "publications", "press", "media"]),
   ("leadership", ["leadership", "leadership experience", "activities",
    "affiliations", "memberships"]),
   ("references", ["references"])]

/-- Embeds `_heading_key` (lines 174-180): a line is a heading only when its
trimmed, lower-cased, colon-stripped form exactly equals an alias. -/
def heading_key (line : String) : Option String :=
  let s := pyStrip (rstripChars [':'] (lowerStr (pyStrip line)))
  (sectionAliases.find? (fun kv => kv.2.any (fun n => n = s))).map Prod.fst

/-- `sections.setdefault(k, [])`, keeping dict insertion order. -/
def assocSetdefault (m : Sections) (k : String) : Sections :=
  if sectionsHasKey m k then m else m ++ [(k, [])]

/-- Append one line to the section `k` (assumed present). -/
def assocAppend (m : Sections) (k : String) (v : String) : Sections :=
  m.map (fun kv => if kv.1 = k then (kv.1, kv.2 ++ [v]) else kv)

/-- Embeds `_split_sections` (lines 182-193): scan lines, switching the
current section on heading matches; lines before any heading land in
"header". -/
def split_sections (text : String) : Sections :=
  ((splitAny (fun c => c == '\n') text).foldl
    (fun st ln =>
      match heading_key ln with
      | some k => (assocSetdefault st.1 k, k)
      | none => (assocAppend st.1 st.2 ln, st.2))
    (([("header", [])] : Sections), "header")).1

/-- Collect the first six stripped non-empty summary lines (the loop of
`_extract_summary`, which breaks once the chunk reaches six entries). -/
def summaryChunk : List String → List String → List String
  | [], acc => acc.reverse
  | ln :: rest, acc =>
    let acc2 := if pyStrip ln ≠ "" then pyStrip ln :: acc else acc
    if 6 ≤ acc2.length then acc2.reverse else summaryChunk rest acc2

/-- Embeds `_extract_summary` (lines 539-549). -/
def extract_summary (sections : Sections) : Option String :=
  let lines := sectionsGet sections "summary"
  if lines = [] then none
  else
    let chunk := summaryChunk lines []
    if chunk = [] then none else some (joinSep " " chunk)

/-- Embeds `_extract_languages` (lines 528-533). -/
def extract_languages (sections : Sections) : List String :=
  (sectionsGet sections "languages").foldr (fun ln out =>
    (((splitAny (fun c => ([',', '/', '|', ';'] : List Char).contains c) ln).map
      pyStrip).filter (fun x => x ≠ "")) ++ out) []

/-- Embeds `_extract_awards` (lines 535-537). -/
def extract_awards (sections : Sections) : List String :=
  ((sectionsGet sections "awards").map pyStrip).filter (fun s => s ≠ "")

/-- Certification record (mirrors the parser's output dict). -/
structure CertificationEntry where
  name : String
  issuer : Option String
  date : Option String
  expiry : Option String
deriving DecidableEq

/-- Embeds `_extract_certifications` (lines 512-526): per line, split on
pipe/dash delimiters into name, issuer, date. -/
def extract_certifications (sections : Sections) : List CertificationEntry :=
  (sectionsGet sections "certifications").foldr (fun ln out =>
    let s := pyStrip ln
    if s = "" then out
    else
      let parts := splitDelim (fun c => (['|', '-', '–', '—'] : List Char).contains c) s
      { name := match parts.head? with
          | some p => pyStrip p
          | none => s
        issuer := (parts.get? 1).map pyStrip
        date := (parts.get? 2).map pyStrip
        expiry := none } :: out) []

/-- Regex `\b` between a previous character (none at the string edge) and the
current one: exactly one side is a word character. -/
def wordBoundary (prev : Option Char) (c : Char) : Bool :=
  (match prev with | some p => Analyzer.isWordChar p | none => false) !=
    Analyzer.isWordChar c

/-- Character class of the email local part, `[A-Za-z0-9._%+\-]`. -/
def emailLocalC (c : Char) : Bool :=
  c.isAlphanum || (['.', '_', '%', '+', '-'] : List Char).contains c

/-- Character class of the email domain, `[A-Za-z0-9.\-]`. -/
def emailDomC (c : Char) : Bool :=
  c.isAlphanum || (['.', '-'] : List Char).contains c

/-- One `[A-Za-z]`. -/
def alphaM : Matcher := mCls Char.isAlpha

/-- Try `EMAIL_RE` at the current position (leading and trailing `\b`
checked against the surrounding characters). -/
def emailAt (prev : Option Char) (cs : List Char) : Option (List Char) :=
  match cs with
  | [] => none
  | c :: _ =>
    if ¬ wordBoundary prev c then none
    else
      ((mPlus (mCls emailLocalC)) cs).findSome? (fun r1 =>
        match r1 with
        | '@' :: r2 =>
          ((mPlus (mCls emailDomC)) r2).findSome? (fun r3 =>
            match r3 with
            | '.' :: r4 =>
              ((mSeq alphaM (mPlus alphaM)) r4).findSome? (fun r5 =>
                match r5 with
                | [] => some []
                | c2 :: _ => if Analyzer.isWordChar c2 then none else some r5)
            | _ => none)
        | _ => none)

/-- Leftmost-match scan that tracks the previous character for boundary
checks; returns the suffix where the match starts and the remainder. -/
def scanGo (m : Option Char → List Char → Option (List Char)) :
    Option Char → List Char → Option (List Char × List Char)
  | prev, [] => (m prev []).map (fun r => (([] : List Char), r))
  | prev, c :: rest =>
    match m prev (c :: rest) with
    | some r => some (c :: rest, r)
    | none => scanGo m (some c) rest

/-- `pattern.search(s)` for a positional matcher, returning the match text. -/
def searchWithPrev (m : Option Char → List Char → Option (List Char))
    (s : String) : Option String :=
  (scanGo m none s.toList).map (fun pr => consumed pr.1 pr.2)

/-- `EMAIL_RE.search`. -/
def emailSearch (s : String) : Option String :=
  searchWithPrev emailAt s

/-- The phone separator class `[\s\-\.]`. -/
def phoneSepC (c : Char) : Bool :=
  c.isWhitespace || c = '-' || c = '.'

/-- `PHONE_RE`: `(?:\+?1[\s\-\.]?)?(?:\(?\d{3}\)?[\s\-\.]?)\d{3}[\s\-\.]?\d{4}`. -/
def phoneM : Matcher :=
  mSeq (mOpt (mSeq (mOpt (mLit "+")) (mSeq (mLit "1") (mOpt (mCls phoneSepC)))))
    (mSeq (mSeq (mOpt (mLit "(")) (mSeq (mRep digitM 3) (mOpt (mLit ")"))))
      (mSeq (mOpt (mCls phoneSepC))
        (mSeq (mRep digitM 3) (mSeq (mOpt (mCls phoneSepC)) (mRep digitM 4)))))

/-- `PHONE_RE` at one position (no boundary anchors in the pattern). -/
def phoneAt (_ : Option Char) (cs : List Char) : Option (List Char) :=
  (phoneM cs).head?

/-- `PHONE_RE.search`. -/
def phoneSearch (s : String) : Option String :=
  searchWithPrev phoneAt s

/-- Case-insensitive literal prefix consumption (patterns compiled with
`re.IGNORECASE`). -/
def dropPrefixCI : List Char → List Char → Option (List Char)
  | [], cs => some cs
  | _ :: _, [] => none
  | p :: ps, c :: cs => if p.toLower = c.toLower then dropPrefixCI ps cs else none

/-- Case-insensitive literal matcher. -/
def mLitCI (pat : String) : Matcher := fun cs =>
  match dropPrefixCI pat.toList cs with
  | some rest => [rest]
  | none => []

/-- `[^\s)]` for URL bodies. -/
def urlBodyC (c : Char) : Bool :=
  ¬ (c.isWhitespace || c = ')')

/-- `(?:https?://|www\.)`, case-insensitive. -/
def urlSchemeM : Matcher :=
  mAlt [mSeq (mLitCI "http") (mSeq (mOpt (mLitCI "s")) (mLitCI "://")), mLitCI "www."]

/-- `URL_RE` at one position: `\b(?:https?://|www\.)[^\s)]+`. -/
def urlAt (prev : Option Char) (cs : List Char) : Option (List Char) :=
  match cs with
  | [] => none
  | c :: _ =>
    if ¬ wordBoundary prev c then none
    else (mSeq urlSchemeM (mPlus (mCls urlBodyC)) cs).head?

/-- Last character of the consumed part (for continuing scans after a
non-overlapping match). -/
def lastConsumed (cs r : List Char) : Option Char :=
  (cs.take (cs.length - r.length)).getLast?

/-- `URL_RE.findall`: non-overlapping leftmost matches. -/
def urlFindallGo : ℕ → Option Char → List Char → List String
  | 0, _, _ => []
  | fuel + 1, prev, cs =>
    match urlAt prev cs with
    | some r => consumed cs r :: urlFindallGo fuel (lastConsumed cs r) r
    | none =>
      match cs with
      | [] => []
      | c :: rest => urlFindallGo fuel (some c) rest

/-- `URL_RE.findall` on a string. -/
def urlFindall (s : String) : List String :=
  urlFindallGo (s.toList.length + 1) none s.toList

/-- `URL_RE.search`. -/
def urlSearch (s : String) : Option String :=
  searchWithPrev urlAt s

/-- `[^\s|]` for profile-link bodies. -/
def linkBodyC (c : Char) : Bool :=
  ¬ (c.isWhitespace || c = '|')

/-- `LINKEDIN_ANY_RE`: `(?:https?://|www\.)?linkedin\.com/[^\s|]+`, CI. -/
def linkedinAt (_ : Option Char) (cs : List Char) : Option (List Char) :=
  (mSeq (mOpt urlSchemeM) (mSeq (mLitCI "linkedin.com/") (mPlus (mCls linkBodyC))) cs).head?

/-- `LINKEDIN_ANY_RE.search`. -/
def linkedinSearch (s : String) : Option String :=
  searchWithPrev linkedinAt s

/-- `GITHUB_ANY_RE`: `(?:https?://|www\.)?github\.com/[^\s|]+`, CI. -/
def githubAt (_ : Option Char) (cs : List Char) : Option (List Char) :=
  (mSeq (mOpt urlSchemeM) (mSeq (mLitCI "github.com/") (mPlus (mCls linkBodyC))) cs).head?

/-- `GITHUB_ANY_RE.search`. -/
def githubSearch (s : String) : Option String :=
  searchWithPrev githubAt s

/-- Embeds `_clean_url` (lines 261-274): drop whitespace and zero-width
characters, force a scheme, strip trailing punctuation. -/
def clean_url (u : String) : String :=
  if u = "" then u
  else
    let u1 := String.mk (u.toList.filter (fun c => ¬ c.isWhitespace))
    let u2 := String.mk (u1.toList.filter (fun c =>
      ¬ (c = Char.ofNat 0x200b ∨ c = Char.ofNat 0x200c ∨ c = Char.ofNat 0x200d)))
    let u3 := if startsWithStr u2 "www." then "https://" ++ u2 else u2
    let u4 := if ¬ (startsWithStr (lowerStr u3) "http://" ∨
        startsWithStr (lowerStr u3) "https://" ∨
        startsWithStr (lowerStr u3) "mailto:") then "https://" ++ u3 else u3
    rstripChars [')', ',', '.', ';'] u4

/-- Embeds `_guess_name_from_header` (lines 250-259): first digit-free header
line with two to eight tokens and a length between 2 and 80. -/
def guess_name_from_header (header : List String) : Option String :=
  header.findSome? (fun ln =>
    let s := pyStrip ln
    if s = "" then none
    else if s.toList.any Char.isDigit then none
    else if 2 ≤ (pySplit s).length ∧ (pySplit s).length ≤ 8 ∧
        2 ≤ s.toList.length ∧ s.toList.length ≤ 80 then some s
    else none)

/-- Personal-information record (mirrors the parser's output dict). -/
structure PersonalInfo where
  name : Option String
  email : Option String
  phone : Option String
  location : Option String
  linkedin : Option String
  github : Option String
  website : Option String
deriving DecidableEq

/-- `a or u` for the link-backfill loop: keep `a` when already set. -/
def orKeep (a : Option String) (u : String) : Option String :=
  match a with
  | some x => some x
  | none => some u

/-- Embeds `_extract_personal_info` (lines 332-378): email and phone by
pattern search over the whole document, profile links anywhere in the
document with URL cleaning, name guessed from the header, location deferred
to the majority vote. -/
def extract_personal_info (sections : Sections) : PersonalInfo :=
  let header := sectionsGet sections "header"
  let all_text := joinSep "\n" ((sections.map Prod.snd).flatten)
  let linkedin0 := (linkedinSearch all_text).map clean_url
  let github0 := (githubSearch all_text).map clean_url
  let urls := (urlFindall all_text).map clean_url
  let lgw := urls.foldl (fun (st : Option String × Option String × Option String) u =>
    let lu := lowerStr u
    if containsSub lu "linkedin.com" then (orKeep st.1 u, st.2.1, st.2.2)
    else if containsSub lu "github.com" then (st.1, orKeep st.2.1 u, st.2.2)
    else if containsSub lu "mailto:" then st
    else (st.1, st.2.1, orKeep st.2.2 u)) (linkedin0, github0, none)
  { name := guess_name_from_header header
    email := emailSearch all_text
    phone := phoneSearch all_text
    location := none
    linkedin := lgw.1
    github := lgw.2.1
    website := lgw.2.2 }

/-- The `US_CA_ABBR` state and province abbreviations (lines 109-112). -/
def usCaAbbr : List String :=
  ["AL", "AK", "AZ", "AR", "CA", "CO", "CT", "DC", "DE", "FL", "GA", "HI",
   "IA", "ID", "IL", "IN", "KS", "KY", "LA", "MA", "MD", "ME", "MI", "MN",
   "MO", "MS", "MT", "NC", "ND", "NE", "NH", "NJ", "NM", "NV", "NY", "OH",
   "OK", "OR", "PA", "RI", "SC", "SD", "TN", "TX", "UT", "VA", "VT", "WA",
   "WI", "WV",
   "AB", "BC", "MB", "NB", "NL", "NS", "NT", "NU", "ON", "PE", "QC", "SK", "YT"]

/-- The city/region character class `[A-Za-z .'\-]`. -/
def cityC (c : Char) : Bool :=
  c.isAlpha || ((' ' : Char) = c) || c = '.' || c = '-' || c = '\''

/-- One `[A-Z]`. -/
def upperM : Matcher := mCls (fun c => decide ('A' ≤ c) && decide (c ≤ 'Z'))

/-- Try `CITY_STATE_RE` at the current position, capturing city and the
two-letter region code. -/
def cityStateAt (prev : Option Char) (cs : List Char) :
    Option ((String × String) × List Char) :=
  match cs with
  | [] => none
  | c :: _ =>
    if ¬ wordBoundary prev c then none
    else
      ((mSeq (mCls Char.isAlpha) (mPlus (mCls cityC))) cs).findSome? (fun r1 =>
        match r1 with
        | ',' :: r2 =>
          ((mStar wsM) r2).findSome? (fun r3 =>
            ((mRep upperM 2) r3).findSome? (fun r4 =>
              let cand := (mSeq (mLit ",")
                (mSeq (mStar wsM)
                  (mAlt [mLit "USA", mLit "United States", mLit "Canada"]))) r4 ++ [r4]
              cand.findSome? (fun r5 =>
                match r5 with
                | [] => some ((consumed cs r1, consumed r3 r4), r5)
                | c2 :: _ =>
                  if Analyzer.isWordChar c2 then none
                  else some ((consumed cs r1, consumed r3 r4), r5))))
        | _ => none)

/-- `CITY_STATE_RE.finditer`: non-overlapping scan. -/
def cityStateFindGo : ℕ → Option Char → List Char → List (String × String)
  | 0, _, _ => []
  | fuel + 1, prev, cs =>
    match cityStateAt prev cs with
    | some (g, r) => g :: cityStateFindGo fuel (lastConsumed cs r) r
    | none =>
      match cs with
      | [] => []
      | c :: rest => cityStateFindGo fuel (some c) rest

/-- City/state matches of a string. -/
def cityStateFind (s : String) : List (String × String) :=
  cityStateFindGo (s.toList.length + 1) none s.toList

/-- Try `CITY_PROV_COUNTRY_RE` at the current position, capturing city,
region and the optional country (empty when absent). -/
def cityProvAt (prev : Option Char) (cs : List Char) :
    Option ((String × String × String) × List Char) :=
  match cs with
  | [] => none
  | c :: _ =>
    if ¬ wordBoundary prev c then none
    else
      ((mSeq (mCls Char.isAlpha) (mPlus (mCls cityC))) cs).findSome? (fun r1 =>
        match r1 with
        | ',' :: r2 =>
          ((mStar wsM) r2).findSome? (fun r3 =>
            ((mSeq (mCls Char.isAlpha) (mPlus (mCls cityC))) r3).findSome? (fun r4 =>
              let withCountry := ((mLit ",") r4).flatMap (fun r5 =>
                ((mStar wsM) r5).flatMap (fun r6 =>
                  ((mAlt [mLit "Canada", mLit "USA", mLit "United States"]) r6).map
                    (fun r7 => (consumed r6 r7, r7))))
              let cand := withCountry ++ [("", r4)]
              cand.findSome? (fun gr =>
                match gr.2 with
                | [] => some ((consumed cs r1, consumed r3 r4, gr.1), gr.2)
                | c2 :: _ =>
                  if Analyzer.isWordChar c2 then none
                  else some ((consumed cs r1, consumed r3 r4, gr.1), gr.2))))
        | _ => none)

/-- `CITY_PROV_COUNTRY_RE.finditer`: non-overlapping scan. -/
def cityProvFindGo : ℕ → Option Char → List Char → List (String × String × String)
  | 0, _, _ => []
  | fuel + 1, prev, cs =>
    match cityProvAt prev cs with
    | some (g, r) => g :: cityProvFindGo fuel (lastConsumed cs r) r
    | none =>
      match cs with
      | [] => []
      | c :: rest => cityProvFindGo fuel (some c) rest

/-- City/province/country matches of a string. -/
def cityProvFind (s : String) : List (String × String × String) :=
  cityProvFindGo (s.toList.length + 1) none s.toList

/-- Embeds `_find_location_candidates` (lines 284-307). -/
def find_location_candidates (text : String) : List String :=
  let cands1 := (cityStateFind text).foldr (fun g acc =>
    let city := pyStrip g.1
    let abbr := upperStr (pyStrip g.2)
    if abbr ∈ usCaAbbr then (city ++ ", " ++ abbr) :: acc else acc) []
  let cands2 := (cityProvFind text).foldr (fun g acc =>
    let city := pyStrip g.1
    let region := pyStrip g.2.1
    let country := pyStrip g.2.2
    if (pySplit region).length ≤ 4 ∧ city.toList.length ≤ 64 then
      (let loc := city ++ ", " ++ region
       let loc2 := if country ≠ "" ∧ ¬ containsSub loc country
         then loc ++ ", " ++ country else loc
       loc2 :: acc)
    else acc) []
  dedupCI (cands1 ++ cands2)

/-- Education record (mirrors the parser's output dict). -/
structure EducationEntry where
  degree : Option String
  institution : Option String
  graduation_year : Option String
  gpa : Option String
  field_of_study : Option String
  location : Option String
  start_date : Option String
  end_date : Option String
deriving DecidableEq

/-- Embeds `_majority_vote_location` (lines 309-330): gather candidates from
the header, per-entry locations and the first thirty lines, then pick the
most frequent vote, ties broken by first occurrence. -/
def majority_vote_location (header : List String) (all_text : String)
    (exp : List ExperienceEntry) (edu : List EducationEntry) : Option String :=
  let votes := find_location_candidates (joinSep " " header)
    ++ (exp.foldr (fun e acc =>
        match e.location with
        | some l => if l ≠ "" then l :: acc else acc
        | none => acc) [])
    ++ (edu.foldr (fun e acc =>
        match e.location with
        | some l => if l ≠ "" then l :: acc else acc
        | none => acc) [])
    ++ find_location_candidates
        (joinSep "\n" ((splitAny (fun c => c == '\n') all_text).take 30))
  if votes = [] then none
  else
    let norm := (votes.filter (fun v => v ≠ "")).map pyStrip
    if norm = [] then none
    else
      (dedupKeepFirst norm).foldl (fun best k =>
        match best with
        | none => some k
        | some b => if norm.count b < norm.count k then some k else best) none

/-- The end alternatives of the education header regex (source line 437), in
source order: present sentinels, `\d{4}`, month dates, `MM/YYYY`. -/
def eduEndM : Matcher := mAlt [presentM, d4M, monthDateM, slashDateM]

/-- Anchored match of the education header pattern
`^(?P<inst>.+?)\s+(?P<start>…)\s*(?:[-–—]|to)\s*(?P<end>…)$`: the lazy
institution group grows from one character up, and the whole pattern must
reach the end of the line. -/
def eduHeadMatch (head : String) : Option (String × String × String) :=
  let cs := head.toList
  ((List.range cs.length).map (fun i => i + 1)).findSome? (fun n =>
    if (cs.take n).all (fun c => c != '\n') then
      ((mPlus wsM) (cs.drop n)).findSome? (fun r1 =>
        (spanStartM r1).findSome? (fun r2 =>
          (spanSepM r2).findSome? (fun r3 =>
            (eduEndM r3).findSome? (fun r4 =>
              if r4 = [] then
                some (String.mk (cs.take n), consumed r1 r2, consumed r3 r4)
              else none))))
    else none)

/-- Search of `(.+?)\s+([A-Za-z][A-Za-z .'-]+,\s*[A-Za-z .'-]+)$` on the
second education line: any successful match can be shifted to start at the
beginning of the line (the lazy group absorbs the prefix), so the search is
an anchored match with the lazy group grown from one character. -/
def eduLine2Match (line2 : String) : Option (String × String) :=
  let cs := line2.toList
  ((List.range cs.length).map (fun i => i + 1)).findSome? (fun n =>
    if (cs.take n).all (fun c => c != '\n') then
      ((mPlus wsM) (cs.drop n)).findSome? (fun r1 =>
        ((mSeq (mCls Char.isAlpha) (mPlus (mCls cityC))) r1).findSome? (fun r2 =>
          match r2 with
          | ',' :: r3 =>
            ((mStar wsM) r3).findSome? (fun r4 =>
              ((mPlus (mCls cityC)) r4).findSome? (fun r5 =>
                if r5 = [] then some (String.mk (cs.take n), consumed r1 r5)
                else none))
          | _ => none))
    else none)

/-- Degree keyword test
`re.search(r"(Bachelor|Master|B\.|M\.|PhD|Diploma|Certificate|Postgraduate)", ·, re.I)`. -/
def degreeKw (s : String) : Bool :=
  ["bachelor", "master", "b.", "m.", "phd", "diploma", "certificate",
    "postgraduate"].any (fun k => containsSub (lowerStr s) k)

/-- Institution keyword test
`re.search(r"(University|College|Institute|School)", ·, re.I)`. -/
def institutionKw (s : String) : Bool :=
  ["university", "college", "institute", "school"].any
    (fun k => containsSub (lowerStr s) k)

/-- Try the year-group pattern `\b(19|20)\d{2}\b` at the current position,
returning the captured group (the century prefix, as `findall` does). -/
def yearGroupAt (prev : Option Char) (cs : List Char) : Option (String × List Char) :=
  match cs with
  | [] => none
  | c :: _ =>
    if ¬ wordBoundary prev c then none
    else
      ((mAlt [mLit "19", mLit "20"]) cs).findSome? (fun r1 =>
        ((mRep digitM 2) r1).findSome? (fun r2 =>
          match r2 with
          | [] => some (consumed cs r1, r2)
          | c2 :: _ =>
            if Analyzer.isWordChar c2 then none else some (consumed cs r1, r2)))

/-- `re.findall(r"\b(19|20)\d{2}\b", s)`: the captured groups (century
prefixes) of the non-overlapping matches, in order. -/
def yearGroupsGo : ℕ → Option Char → List Char → List String
  | 0, _, _ => []
  | fuel + 1, prev, cs =>
    match yearGroupAt prev cs with
    | some (g, r) => g :: yearGroupsGo fuel (lastConsumed cs r) r
    | none =>
      match cs with
      | [] => []
      | c :: rest => yearGroupsGo fuel (some c) rest

/-- Year-group findall on a string. -/
def yearGroups (s : String) : List String :=
  yearGroupsGo (s.toList.length + 1) none s.toList

/-- Build one education entry from a block (`_extract_education`,
lines 430-484): two-line institution/date-span layout first, then the inline
delimiter fallback, then the year harvest (which, like the source's
`findall` with a group, yields only the century prefix "19"/"20"). -/
def eduFromBlock (b : List String) : EducationEntry :=
  let m := match b.head? with
    | some h => eduHeadMatch (pyStrip h)
    | none => none
  let institution := match m with
    | some g => some (pyStrip g.1)
    | none => none
  let start := match m with
    | some g => some (pyStrip g.2.1)
    | none => none
  let stop := match m with
    | some g => some (pyStrip g.2.2)
    | none => none
  let dl : Option String × Option String := match m with
    | some _ =>
      (match b.get? 1 with
       | some l2 =>
         (let line2 := pyStrip l2
          match eduLine2Match line2 with
          | some g => (some (pyStrip g.1), some (pyStrip g.2))
          | none => (some line2, none))
       | none => (none, none))
    | none => (none, none)
  let degree := dl.1
  let loc := dl.2
  let dil : Option String × Option String × Option String :=
    if ¬ truthy institution ∧ b ≠ [] then
      (let parts := headerParts ((b.head?).getD "")
       let s1 : Option String × Option String := match parts.head? with
         | some p0 =>
           if degreeKw p0 then (some (pyStrip p0), institution)
           else (degree, some (pyStrip p0))
         | none => (degree, institution)
       let s2 : Option String × Option String := match parts.get? 1 with
         | some p1 =>
           if ¬ truthy s1.2 ∧ institutionKw p1 then (some (pyStrip p1), loc)
           else (s1.2, some (pyStrip p1))
         | none => (s1.2, loc)
       let loc3 := match parts.get? 2 with
         | some p2 => if ¬ truthy s2.2 then some (pyStrip p2) else s2.2
         | none => s2.2
       (s1.1, s2.1, loc3))
    else (degree, institution, loc)
  let grad_year := (yearGroups (joinSep " " b)).getLast?
  { degree := dil.1
    institution := dil.2.1
    graduation_year := grad_year
    gpa := none
    field_of_study := none
    location := dil.2.2
    start_date := start
    end_date := stop }

/-- Embeds `_extract_education` (lines 424-485). -/
def extract_education (sections : Sections) : List EducationEntry :=
  let lines := sectionsGet sections "education"
  if lines = [] then []
  else (collect_blocks lines).map eduFromBlock

/-- Project record (mirrors the parser's output dict). -/
structure ProjectEntry where
  name : Option String
  description : Option String
  technologies : List String
  url : Option String
deriving DecidableEq

/-- The technology-label alternation of `_extract_projects`
`(Developed with|Tech|Technolog(?:y|ies)|Stack)`, case-insensitive, in
source order. -/
def techKwM : Matcher :=
  mAlt [mLitCI "Developed with", mLitCI "Tech",
    mSeq (mLitCI "Technolog") (mAlt [mLitCI "y", mLitCI "ies"]), mLitCI "Stack"]

/-- Try the technologies pattern at the current position; the captured tail
`(.+)` is the greedy run of non-newline characters after the separator. -/
def techTailAt (cs : List Char) : Option String :=
  (techKwM cs).findSome? (fun r1 =>
    ((mStar wsM) r1).findSome? (fun r2 =>
      match r2 with
      | c :: r3 =>
        if c = ':' ∨ c = '-' then
          ((mStar wsM) r3).findSome? (fun r4 =>
            let body := r4.takeWhile (fun ch => ch != '\n')
            if body = [] then none else some (String.mk body))
        else none
      | [] => none))

/-- Leftmost search for the technologies pattern. -/
def techSearchGo : List Char → Option String
  | [] => none
  | c :: rest =>
    match techTailAt (c :: rest) with
    | some g => some g
    | none => techSearchGo rest

/-- `re.search` of the technologies pattern, returning group 2. -/
def techSearch (s : String) : Option String :=
  techSearchGo s.toList

/-- Embeds `_extract_projects` (lines 487-510). -/
def extract_projects (sections : Sections) : List ProjectEntry :=
  let lines := sectionsGet sections "projects"
  if lines = [] then []
  else (collect_blocks lines).map (fun b =>
    let joined := joinSep " " b
    { name := match b.head? with
        | some h => some (pyStrip h)
        | none => none
      description :=
        if 1 < b.length then some (joinSep " " (parse_bullets (b.drop 1))) else none
      technologies := match techSearch joined with
        | some g2 => ((splitAny (fun c => ([',', '/', '|'] : List Char).contains c)
            g2).map pyStrip).filter (fun t => t ≠ "")
        | none => []
      url := (urlSearch joined).map clean_url })

/-- The skill-bucket record `{"technical": [], "soft": [], "domain": []}`. -/
structure SkillBuckets where
  technical : List String
  soft : List String
  domain : List String
deriving DecidableEq

/-- The skill-section names probed by `_extract_skills_generic`
(lines 553-555), in source order. -/
def skillSectionNames : List String :=
  ["skills", "competencies", "core competencies", "key skills",
   "technical skills", "professional skills", "expertise",
   "areas of expertise", "qualifications", "strengths", "core strengths",
   "abilities", "proficiencies"]

/-- The summary-scan phrases of `_extract_skills_generic` (line 566). -/
def skillPhraseKws : List String :=
  ["skilled in", "proficient in", "experienced in", "expertise in",
   "knowledge of"]

/-- `TECH_LABELS` (lines 574-596). -/
def techLabels : List String :=
  ["technical", "technical skills", "programming", "frontend", "back-end",
   "backend", "full-stack",
   "cloud", "cloud/devops", "devops", "tools", "other tools", "frameworks",
   "libraries",
   "databases", "database", "data", "ai/ml & data", "ai/ml", "ai", "ml",
   "analytics",
   "blockchain", "security", "testing", "qa", "platforms", "infrastructure",
   "systems",
   "etl", "bi", "visualization", "mobile", "ios", "android", "automation",
   "engineering", "cad", "design software", "modeling", "simulation",
   "autocad", "solidworks",
   "matlab", "plc", "scada", "cnc", "lean manufacturing", "six sigma",
   "quality control",
   "medical software", "emr", "ehr", "epic", "cerner", "medical devices",
   "laboratory equipment",
   "diagnostic tools", "imaging", "radiology", "pathology",
   "clinical research",
   "financial software", "excel", "quickbooks", "sap", "oracle", "bloomberg",
   "financial modeling",
   "risk management", "trading platforms", "accounting software", "erp",
   "crm",
   "adobe", "photoshop", "illustrator", "indesign", "figma", "sketch",
   "3d modeling",
   "video editing", "audio editing", "graphic design", "web design", "ux/ui",
   "laboratory techniques", "research methods", "statistical analysis",
   "spss", "r", "python",
   "microscopy", "spectroscopy", "chromatography", "pcr", "cell culture"]

/-- `SOFT_LABELS` (lines 598-606). -/
def softLabels : List String :=
  ["soft", "soft skills", "communication", "leadership", "interpersonal",
   "collaboration",
   "teamwork", "problem solving", "time management", "organization",
   "stakeholder management",
   "customer service", "sales", "negotiation", "presentation",
   "public speaking",
   "conflict resolution", "mentoring", "coaching", "training", "facilitation",
   "critical thinking", "analytical thinking", "creativity", "innovation",
   "adaptability",
   "flexibility", "resilience", "emotional intelligence", "cultural awareness",
   "project management", "team building", "decision making",
   "strategic thinking"]

/-- `DOMAIN_LABELS` (lines 608-631). -/
def domainLabels : List String :=
  ["domain", "business", "industry", "methodologies", "practices",
   "certifications",
   "compliance", "regulatory", "finance", "marketing", "sales", "operations",
   "supply chain",
   "hr", "human resources", "healthcare", "education", "real estate",
   "banking", "hospitality", "retail",
   "cardiology", "oncology", "pediatrics", "surgery", "nursing", "pharmacy",
   "physical therapy",
   "occupational therapy", "radiology", "pathology", "anesthesiology",
   "emergency medicine",
   "litigation", "corporate law", "family law", "criminal law",
   "intellectual property",
   "contract law", "real estate law", "tax law", "employment law",
   "immigration law",
   "curriculum development", "lesson planning", "classroom management",
   "assessment",
   "special education", "esl", "stem", "early childhood", "higher education",
   "strategic planning", "business development", "market research",
   "brand management",
   "digital marketing", "content marketing", "social media", "seo", "sem",
   "ppc",
   "supply chain management", "logistics", "procurement", "vendor management",
   "process improvement", "quality assurance", "regulatory compliance",
   "safety management",
   "environmental compliance", "iso standards", "fda regulations", "gmp",
   "haccp",
   "brand identity", "visual communication", "user experience",
   "user interface",
   "motion graphics", "typography", "color theory", "composition",
   "storytelling"]

/-- The technical regex fallback of `label_to_bucket` (line 641): any of
these words as a substring of the label. -/
def techLabelKws : List String :=
  ["programming", "frontend", "backend", "cloud", "devops", "tools",
   "framework", "library", "database", "data", "ai", "ml", "blockchain",
   "security", "testing", "qa", "platform", "infra", "etl", "bi", "viz",
   "mobile", "automation"]

/-- The soft regex fallback of `label_to_bucket` (line 643). -/
def softLabelKws : List String :=
  ["communication", "leadership", "team", "stakeholder", "management",
   "problem", "time", "organization", "customer", "sales", "negotiation",
   "presentation"]

/-- Embeds `label_to_bucket` (lines 633-645): exact membership in the three
label sets, then substring fallbacks, defaulting to "domain". -/
def label_to_bucket (label : String) : String :=
  let lab := rstripChars [':'] (lowerStr (pyStrip label))
  if lab ∈ techLabels then "technical"
  else if lab ∈ softLabels then "soft"
  else if lab ∈ domainLabels then "domain"
  else if techLabelKws.any (fun k => containsSub lab k) then "technical"
  else if softLabelKws.any (fun k => containsSub lab k) then "soft"
  else "domain"

/-- The generic headings skipped inside a skills section (lines 656-657). -/
def genericSkillHeadings : List String :=
  ["skills", "technical skills", "soft skills", "core skills", "competencies",
   "strengths", "technical competencies", "areas of expertise", "key skills",
   "core competencies"]

/-- Append parts to the bucket named by `key` ∈ {technical, soft, domain}. -/
def bucketsExtend (b : SkillBuckets) (key : String) (parts : List String) :
    SkillBuckets :=
  if key = "technical" then { b with technical := b.technical ++ parts }
  else if key = "soft" then { b with soft := b.soft ++ parts }
  else { b with domain := b.domain ++ parts }

/-- One iteration of the label/content loop of `_extract_skills_generic`
(lines 649-670); the state is the buckets plus the current bucket name. -/
def skillLineStep (st : SkillBuckets × String) (raw : String) :
    SkillBuckets × String :=
  let ln := pyStrip raw
  if ln = "" then st
  else
    let low := rstripChars [':'] (lowerStr ln)
    if low ∈ genericSkillHeadings then st
    else if endsWithStr ln ":" then (st.1, label_to_bucket ln)
    else
      let parts := ((splitAny
        (fun c => ([',', '/', '|', ';'] : List Char).contains c) ln).map
          pyStrip).filter (fun x => x ≠ "")
      if parts = [] then st
      else (bucketsExtend st.1 st.2 parts, st.2)

/-- Strip one leading bullet character with its following whitespace
(`re.sub(r'^[•◦▪■–—-]\s*', '', ·)`). -/
def stripLeadBullet (s : String) : String :=
  match s.toList with
  | c :: rest =>
    if (['•', '◦', '▪', '■', '–', '—', '-'] : List Char).contains c then
      String.mk (rest.dropWhile Char.isWhitespace)
    else s
  | [] => s

/-- The generic headers skipped by the free-text fallback (lines 703-704). -/
def fallbackSkipHeaders : List String :=
  ["skills", "technical skills", "soft skills", "core skills", "competencies",
   "key skills", "areas of expertise"]

/-- The technical substring keywords of the fallback categorizer
(lines 711-716). -/
def fallbackTechWords : List String :=
  ["software", "programming", "coding", "development", "database", "system",
   "technology", "technical", "computer", "digital", "web", "mobile", "app",
   "cloud", "server", "network", "security", "automation", "analytics",
   "microsoft", "adobe", "google", "amazon", "oracle", "sap", "salesforce"]

/-- The soft-skill substring keywords of the fallback categorizer
(lines 718-722). -/
def fallbackSoftWords : List String :=
  ["communication", "leadership", "team", "management", "organization",
   "problem", "critical", "analytical", "creative", "interpersonal",
   "presentation", "negotiation", "customer", "client", "service"]

/-- Flat token harvest of the free-text fallback (lines 685-694). -/
def fallbackFlat (lines : List String) : List String :=
  lines.foldr (fun ln acc =>
    let clean_line := stripLeadBullet (pyStrip ln)
    if clean_line = "" then acc
    else
      (let parts := ((splitAny
          (fun c => ([',', '/', '|', ';', '•'] : List Char).contains c)
          clean_line).map pyStrip).filter (fun x => x ≠ "")
       let parts2 := if parts = [] ∧ clean_line ≠ "" then [clean_line] else parts
       parts2 ++ acc)) []

/-- Categorization loop of the free-text fallback (lines 697-725); the
second argument carries the lower-cased skills already seen. -/
def fallbackCategorize : List String → List String → SkillBuckets → SkillBuckets
  | [], _, b => b
  | skill :: rest, seen, b =>
    let skill_clean := pyStrip skill
    let skill_lower := lowerStr skill_clean
    if skill_lower ∈ fallbackSkipHeaders ∨ skill_clean.toList.length < 2 ∨
        skill_lower ∈ seen then
      fallbackCategorize rest seen b
    else if fallbackTechWords.any (fun w => containsSub skill_lower w) then
      fallbackCategorize rest (skill_lower :: seen)
        { b with technical := b.technical ++ [skill_clean] }
    else if fallbackSoftWords.any (fun w => containsSub skill_lower w) then
      fallbackCategorize rest (skill_lower :: seen)
        { b with soft := b.soft ++ [skill_clean] }
    else
      fallbackCategorize rest (skill_lower :: seen)
        { b with domain := b.domain ++ [skill_clean] }

/-- Embeds `_extract_skills_generic` (lines 551-727): gather candidate lines
from every skills-like section (falling back to "skilled in …" summary
lines), run the label/content loop with a current-bucket state defaulting to
"technical", deduplicate case-insensitively, and fall back to flat free-text
categorization when every bucket stayed empty. -/
def extract_skills_generic (sections : Sections) : SkillBuckets :=
  let lines := skillSectionNames.foldl (fun acc name =>
    if sectionsHasKey sections name then acc ++ sectionsGet sections name
    else acc) []
  let lines := if lines = [] then
      (sectionsGet sections "summary" ++ sectionsGet sections "objective" ++
        sectionsGet sections "profile").filter (fun line =>
          skillPhraseKws.any (fun kw => containsSub (lowerStr line) kw))
    else lines
  if lines = [] then ⟨[], [], []⟩
  else
    let st := lines.foldl skillLineStep (⟨[], [], []⟩, "technical")
    let buckets : SkillBuckets :=
      ⟨dedupCI st.1.technical, dedupCI st.1.soft, dedupCI st.1.domain⟩
    if buckets.technical = [] ∧ buckets.soft = [] ∧ buckets.domain = [] then
      fallbackCategorize (fallbackFlat lines) [] buckets
    else buckets

/-- Python truthiness of `e` plus `re.search(r"(present|current|now)", e, re.I)`. -/
def presentLike (e : String) : Bool :=
  containsSub (lowerStr e) "present" || containsSub (lowerStr e) "current" ||
    containsSub (lowerStr e) "now"

/-- The `try` body of one `_calculate_total_experience` iteration;
`Except.error` models a `ValueError` escaping `_parse_month_year`. -/
def entryMonths (exp : ExperienceEntry) (now : MonthDate) : Except Unit ℤ :=
  let s := exp.start_date.getD ""
  let e := exp.end_date.getD ""
  match parse_month_year s with
  | Except.error u => Except.error u
  | Except.ok start_dt =>
    match (if e ≠ "" ∧ presentLike e then Except.ok none
           else parse_month_year e) with
    | Except.error u => Except.error u
    | Except.ok end_dt => Except.ok (months_between start_dt end_dt now)

/-- Embeds `_calculate_total_experience` (lines 1001-1016), summing clamped
month spans and rounding years to one decimal; the per-entry
`except Exception: continue` clause turns a raised `ValueError` into a
zero-month contribution. -/
def calculate_total_experience (experiences : List ExperienceEntry)
    (now : MonthDate) : ℚ :=
  let total_months := experiences.foldl (fun acc exp =>
    match entryMonths exp now with
    | Except.ok m => acc + m
    | Except.error _ => acc) (0 : ℤ)
  pyRound1 ((total_months : ℚ) / 12)

/-- The `statistics` sub-dictionary of the rule-based parse result. -/
structure ParseStatistics where
  total_experience_years : ℚ
  skill_count : ℕ
  education_count : ℕ
  project_count : ℕ
  certification_count : ℕ
deriving DecidableEq

/-- The rule-based parse result (the dict built by
`_basic_parse_fallback_with_sections`); the `parsed_at` wall-clock timestamp
is not modelled, and the invocation time enters through the explicit `now`
parameter used by the experience-duration statistic. -/
structure ParsedResumeData where
  personal_info : PersonalInfo
  summary : Option String
  skills : SkillBuckets
  experience : List ExperienceEntry
  education : List EducationEntry
  projects : List ProjectEntry
  certifications : List CertificationEntry
  languages : List String
  awards : List String
  raw_text : String
  statistics : ParseStatistics
deriving DecidableEq

/-- Embeds `_basic_parse_fallback_with_sections` (lines 1048-1088): the full
rule-based parse, with the location backfilled by majority vote when the
extractor left it unset. -/
def basic_parse_fallback_with_sections (text : String) (now : MonthDate) :
    ParsedResumeData :=
  let sections := split_sections text
  let personal_info := extract_personal_info sections
  let skills := extract_skills_generic sections
  let experience := extract_experience sections
  let education := extract_education sections
  let projects := extract_projects sections
  let certifications := extract_certifications sections
  let voted := majority_vote_location (sectionsGet sections "header") text
    experience education
  let personal_info2 :=
    if ¬ truthy personal_info.location then
      { personal_info with location := voted }
    else personal_info
  { personal_info := personal_info2
    summary := extract_summary sections
    skills := skills
    experience := experience
    education := education
    projects := projects
    certifications := certifications
    languages := extract_languages sections
    awards := extract_awards sections
    raw_text := text
    statistics :=
      { total_experience_years := calculate_total_experience experience now
        skill_count := skills.technical.length + skills.soft.length +
          skills.domain.length
        education_count := education.length
        project_count := projects.length
        certification_count := certifications.length } }

end Parser

/-- An `if _ then a else 0` expression is nonnegative whenever `a` is. -/
lemma ite_nonneg (c : Prop) [Decidable c] (a : ℚ) (ha : 0 ≤ a) :
    (0 : ℚ) ≤ if c then a else 0 := by
  split_ifs
  · exact ha
  · exact le_refl 0

/-- 100 minus nonnegative deductions stays at most 100. -/
lemma hundred_sub3_le (x y z : ℚ) (hx : 0 ≤ x) (hy : 0 ≤ y) (hz : 0 ≤ z) :
    (100 : ℚ) - x - y - z ≤ 100 := by linarith

/-- 100 minus two nonnegative deductions stays at most 100. -/
lemma hundred_sub2_le (x y : ℚ) (hx : 0 ≤ x) (hy : 0 ≤ y) :
    (100 : ℚ) - x - y ≤ 100 := by linarith

/-- C6 (counterexample): on the resume text below and the empty job
description, the ATS score actually attached to the match results
(`analysis.py`'s keyword-fraction score) is 0, while the
0.35/0.30/0.20/0.15-weighted sum of the analyzer's four sub-scores claimed by
the specification evaluates to 65; the two disagree, so the attached score is
not the weighted formula. -/
theorem ats_attached_counterexample :
    Analysis.calculate_ats_score
      "experience education skills - - - - - developed implemented managed" "" ≠
    Analyzer.claimedAtsScore
      "experience education skills - - - - - developed implemented managed" "" := by
  have hattached : Analysis.calculate_ats_score
      "experience education skills - - - - - developed implemented managed" "" = 0 := by
    have h0 : pySplit (lowerStr "") = [] := by decide
    simp only [Analysis.calculate_ats_score]
    rw [if_pos h0]
  have hclean : Analyzer.clean_text
      "experience education skills - - - - - developed implemented managed" =
      "experience education skills - - - - - developed implemented managed" := by
    decide
  have hkw : Analyzer.extract_job_keywords (Analyzer.clean_text "") = [] := by decide
  have hkd : Analyzer.evaluate_keyword_density
      "experience education skills - - - - - developed implemented managed" [] = 0 := by
    simp [Analyzer.evaluate_keyword_density]
  have hf : Analyzer.evaluate_formatting
      "experience education skills - - - - - developed implemented managed" = 100 := by
    have hp : (("experience education skills - - - - - developed implemented managed"
        : String).toList.filter (fun c => 127 < c.toNat)).length = 0 := by decide
    have hm : Analyzer.countLongRuns Char.isWhitespace 3
        "experience education skills - - - - - developed implemented managed" = 0 := by
      decide
    have hsp : (("experience education skills - - - - - developed implemented managed"
        : String).toList.filter
        (fun c => ¬ (Analyzer.isWordChar c || c.isWhitespace))).length = 5 := by decide
    have hlen : ("experience education skills - - - - - developed implemented managed"
        : String).length = 67 := by decide
    simp only [Analyzer.evaluate_formatting]
    rw [hp, hm, hsp, hlen, if_neg (by norm_num)]
    norm_num
  have hs : Analyzer.evaluate_structure
      "experience education skills - - - - - developed implemented managed" = 100 := by
    have hmiss : ((["experience", "education", "skills"] : List String).filter
        (fun sec => ¬ containsSub
          (lowerStr "experience education skills - - - - - developed implemented managed")
          sec)).length = 0 := by decide
    have hmark : Analyzer.count_section_markers
        (lowerStr "experience education skills - - - - - developed implemented managed") =
        3 := by decide
    simp only [Analyzer.evaluate_structure]
    rw [hmiss, hmark, if_neg (by norm_num)]
    norm_num
  have hc : Analyzer.evaluate_clarity
      "experience education skills - - - - - developed implemented managed" = 100 := by
    have hb : countChar
        "experience education skills - - - - - developed implemented managed" '•' +
        countChar
        "experience education skills - - - - - developed implemented managed" '-' +
        countChar
        "experience education skills - - - - - developed implemented managed" '*' = 5 := by
      decide
    have hv : ((["developed", "implemented", "managed", "created", "designed",
        "led", "improved", "achieved"] : List String).filter (fun v => containsSub
          (lowerStr "experience education skills - - - - - developed implemented managed")
          v)).length = 3 := by decide
    simp only [Analyzer.evaluate_clarity]
    rw [hb, hv, if_neg (by norm_num), if_neg (by norm_num)]
    norm_num
  have hclaimed : Analyzer.claimedAtsScore
      "experience education skills - - - - - developed implemented managed" "" = 65 := by
    simp only [Analyzer.claimedAtsScore]
    rw [hclean, hkw, hkd, hf, hs, hc]
    norm_num
  rw [hattached, hclaimed]
  norm_num

/-- C6 (amended): the ATS score attached to the match results equals the
fraction of distinct lower-cased job-description tokens present among the
resume tokens (times 100, capped, and 0 for a token-free job description);
each of the analyzer's four sub-scores lies in [0, 100]; and the separate
analyzer ATS score equals the 0.35/0.30/0.20/0.15-weighted sum capped at 100
whenever at least one job keyword was extracted. -/
theorem ats_attached_amended (rt jt rjt : String) (rk kws : List String) :
    Analysis.calculate_ats_score rt jt = Analysis.specAttachedAts rt jt ∧
    (0 ≤ Analyzer.evaluate_keyword_density rt kws ∧
      Analyzer.evaluate_keyword_density rt kws ≤ 100) ∧
    (0 ≤ Analyzer.evaluate_formatting rt ∧ Analyzer.evaluate_formatting rt ≤ 100) ∧
    (0 ≤ Analyzer.evaluate_structure rt ∧ Analyzer.evaluate_structure rt ≤ 100) ∧
    (0 ≤ Analyzer.evaluate_clarity rt ∧ Analyzer.evaluate_clarity rt ≤ 100) ∧
    (kws ≠ [] → Analyzer.analyzer_calculate_ats_score rt rjt rk kws =
      min (Analyzer.evaluate_keyword_density rt kws * (35/100) +
        Analyzer.evaluate_formatting rt * (30/100) +
        Analyzer.evaluate_structure rt * (20/100) +
        Analyzer.evaluate_clarity rt * (15/100)) 100) := by
  refine ⟨?_, ?_, ?_, ?_, ?_, ?_⟩
  · unfold Analysis.calculate_ats_score Analysis.specAttachedAts
    by_cases h : pySplit (lowerStr jt) = []
    · simp [h]
    · have hpos : 0 < (pySplit (lowerStr jt)).toFinset.card := by
        rw [Finset.card_pos]
        rcases List.exists_mem_of_ne_nil _ h with ⟨x, hx⟩
        exact ⟨x, List.mem_toFinset.mpr hx⟩
      simp [h, hpos]
  · simp only [Analyzer.evaluate_keyword_density]
    split_ifs with h1 h2 h3 h4
    · norm_num
    · norm_num
    · constructor
      · calc (0 : ℚ) ≤ 50 := by norm_num
          _ ≤ _ := le_max_left _ _
      · refine max_le (by norm_num) ?_
        have h := abs_nonneg (Analyzer.kdDensity rt kws - 5/2)
        nlinarith
    · norm_num
    · norm_num
  · unfold Analyzer.evaluate_formatting
    exact ⟨le_max_left 0 _, max_le (by norm_num)
      (hundred_sub3_le _ _ _ (by positivity) (by positivity)
        (ite_nonneg _ _ (by norm_num)))⟩
  · unfold Analyzer.evaluate_structure
    exact ⟨le_max_left 0 _, max_le (by norm_num)
      (hundred_sub2_le _ _ (by positivity) (ite_nonneg _ _ (by norm_num)))⟩
  · unfold Analyzer.evaluate_clarity
    exact ⟨le_max_left 0 _, max_le (by norm_num)
      (hundred_sub2_le _ _ (ite_nonneg _ _ (by norm_num))
        (ite_nonneg _ _ (by norm_num)))⟩
  · intro h
    simp [Analyzer.analyzer_calculate_ats_score, h]

/-- Witness for `ats_attached_amended` with one concrete extracted keyword. -/
theorem ats_attached_amended_witness :
    (["x"] : List String) ≠ [] ∧
    Analyzer.analyzer_calculate_ats_score "" "" [] ["x"] =
      min (Analyzer.evaluate_keyword_density "" ["x"] * (35/100) +
        Analyzer.evaluate_formatting "" * (30/100) +
        Analyzer.evaluate_structure "" * (20/100) +
        Analyzer.evaluate_clarity "" * (15/100)) 100 :=
  ⟨by decide, (ats_attached_amended "" "" "" [] ["x"]).2.2.2.2.2 (by decide)⟩

/-- C7 (counterexample): two inputs whose densities (0% and 5%) are both at
distance 1.5 from the optimal 1.5-3.5 band receive keyword-density scores 0
and 50 respectively, so no rule assigning `max 0 (a - c·distance)` — in
particular no linear decay from the band with floor 0 — matches the code;
the code's floor for positive out-of-band densities is 50, not 0, and its
decay is measured from the band midpoint 2.5. -/
theorem keyword_density_not_linear_counterexample :
    ¬ ∃ a c : ℚ,
      Analyzer.evaluate_keyword_density "alpha beta" ["z"] =
        max 0 (a - c * (3/2)) ∧
      Analyzer.evaluate_keyword_density
        "k w w w w w w w w w w w w w w w w w w w" ["k"] =
        max 0 (a - c * (3/2)) := by
  rintro ⟨a, c, h1, h2⟩
  have hd1 : Analyzer.kdDensity "alpha beta" ["z"] = 0 := by
    have hfound : ((["z"] : List String).filter
        (fun k => containsSub "alpha beta" k)).length = 0 := by decide
    have hwords : (pySplit "alpha beta").length = 2 := by decide
    rw [Analyzer.kdDensity, hfound, hwords]
    norm_num
  have e1 : Analyzer.evaluate_keyword_density "alpha beta" ["z"] = 0 := by
    simp only [Analyzer.evaluate_keyword_density]
    rw [if_neg (by decide), if_pos (by decide),
      if_neg (by rw [hd1]; norm_num), if_neg (by rw [hd1]; norm_num)]
  have hd2 : Analyzer.kdDensity "k w w w w w w w w w w w w w w w w w w w" ["k"] = 5 := by
    have hfound : ((["k"] : List String).filter
        (fun k => containsSub "k w w w w w w w w w w w w w w w w w w w" k)).length = 1 := by
      decide
    have hwords : (pySplit "k w w w w w w w w w w w w w w w w w w w").length = 20 := by
      decide
    rw [Analyzer.kdDensity, hfound, hwords]
    norm_num
  have e2 : Analyzer.evaluate_keyword_density
      "k w w w w w w w w w w w w w w w w w w w" ["k"] = 50 := by
    simp only [Analyzer.evaluate_keyword_density]
    rw [if_neg (by decide), if_pos (by decide),
      if_neg (by rw [hd2]; norm_num), if_pos (by rw [hd2]; norm_num), hd2]
    have habs : |(5 : ℚ) - 5/2| = 5/2 := by
      rw [abs_of_pos] <;> norm_num
    rw [habs]
    norm_num
  rw [e1] at h1
  rw [e2] at h2
  rw [← h1] at h2
  norm_num at h2

/-- C7 (amended): for a non-empty keyword list and a resume with at least one
word, the keyword-density sub-score is maximal (100) exactly when the density
lies in the 1.5-3.5 band; outside the band a positive density scores
`max 50 (100 - 20·|density - 2.5|)` — linear in the distance from the band
midpoint 2.5 with floor 50 — and a zero density scores 0. -/
theorem keyword_density_band_characterization (rt : String) (kws : List String)
    (hk : kws ≠ []) (hw : 0 < (pySplit rt).length) :
    (Analyzer.evaluate_keyword_density rt kws = 100 ↔
      3/2 ≤ Analyzer.kdDensity rt kws ∧ Analyzer.kdDensity rt kws ≤ 7/2) ∧
    (0 < Analyzer.kdDensity rt kws →
      ¬ (3/2 ≤ Analyzer.kdDensity rt kws ∧ Analyzer.kdDensity rt kws ≤ 7/2) →
      Analyzer.evaluate_keyword_density rt kws =
        max 50 (100 - |Analyzer.kdDensity rt kws - 5/2| * 20)) ∧
    (Analyzer.kdDensity rt kws = 0 →
      Analyzer.evaluate_keyword_density rt kws = 0) := by
  have hval : Analyzer.evaluate_keyword_density rt kws =
      (if 3/2 ≤ Analyzer.kdDensity rt kws ∧ Analyzer.kdDensity rt kws ≤ 7/2
       then (100 : ℚ)
       else if 0 < Analyzer.kdDensity rt kws then
         max 50 (100 - |Analyzer.kdDensity rt kws - 5/2| * 20)
       else 0) := by
    simp only [Analyzer.evaluate_keyword_density]
    rw [if_neg hk, if_pos hw]
  rw [hval]
  refine ⟨⟨?_, ?_⟩, ?_, ?_⟩
  · intro h
    by_contra hband
    rw [if_neg hband] at h
    split_ifs at h with hd
    · have hb : 100 - |Analyzer.kdDensity rt kws - 5/2| * 20 = 100 := by
        rcases max_choice 50 (100 - |Analyzer.kdDensity rt kws - 5/2| * 20) with hm | hm
        · rw [hm] at h
          norm_num at h
        · rw [hm] at h
          exact h
      have habs : |Analyzer.kdDensity rt kws - 5/2| = 0 := by
        have h0 := abs_nonneg (Analyzer.kdDensity rt kws - 5/2)
        linarith
      have hd2 : Analyzer.kdDensity rt kws = 5/2 := by
        have := abs_eq_zero.mp habs
        linarith
      exact hband ⟨by rw [hd2]; norm_num, by rw [hd2]; norm_num⟩
    · norm_num at h
  · intro hband
    rw [if_pos hband]
  · intro hd hband
    rw [if_neg hband, if_pos hd]
  · intro h0
    have hnb : ¬ (3/2 ≤ Analyzer.kdDensity rt kws ∧ Analyzer.kdDensity rt kws ≤ 7/2) := by
      rw [h0]
      norm_num
    have hnp : ¬ (0 < Analyzer.kdDensity rt kws) := by
      rw [h0]
      norm_num
    rw [if_neg hnb, if_neg hnp]

/-- Witness for `keyword_density_band_characterization` on a two-word resume
containing one of the two keywords (density 50%, out of band, score 50). -/
theorem keyword_density_band_witness :
    ((["k"] : List String) ≠ [] ∧ 0 < (pySplit "k w").length) ∧
    (Analyzer.evaluate_keyword_density "k w" ["k"] = 100 ↔
      3/2 ≤ Analyzer.kdDensity "k w" ["k"] ∧ Analyzer.kdDensity "k w" ["k"] ≤ 7/2) :=
  ⟨⟨by decide, by decide⟩,
    (keyword_density_band_characterization "k w" ["k"] (by decide) (by decide)).1⟩

/-- Rounding an integer-valued rational is the identity. -/
lemma pyRound_intCast (n : ℤ) : pyRound ((n : ℚ)) = n := by
  unfold pyRound
  rw [Int.floor_intCast]
  norm_num

/-- Rounding an integer-valued rational to one decimal is the identity. -/
lemma pyRound1_intCast (n : ℤ) : pyRound1 ((n : ℚ)) = (n : ℚ) := by
  unfold pyRound1
  have h : ((n : ℚ)) * 10 = ((n * 10 : ℤ) : ℚ) := by push_cast; ring
  rw [h, pyRound_intCast]
  push_cast
  exact mul_div_cancel_right₀ _ (by norm_num)

/-- Total experience of a single entry whose `try` body succeeds. -/
lemma calc_total_single_ok (x : Parser.ExperienceEntry) (now : Parser.MonthDate)
    (m : ℤ) (h : Parser.entryMonths x now = Except.ok m) :
    Parser.calculate_total_experience [x] now = pyRound1 (((m : ℤ) : ℚ) / 12) := by
  simp only [Parser.calculate_total_experience, List.foldl, h, zero_add]

/-- Total experience of a single entry whose `try` body raises: the
exception handler contributes zero months. -/
lemma calc_total_single_err (x : Parser.ExperienceEntry) (now : Parser.MonthDate)
    (h : Parser.entryMonths x now = Except.error ()) :
    Parser.calculate_total_experience [x] now = 0 := by
  simp only [Parser.calculate_total_experience, List.foldl, h]
  have h0 : (((0 : ℤ) : ℚ)) / 12 = (((0 : ℤ) : ℚ)) := by norm_num
  rw [h0, pyRound1_intCast]
  norm_num

/-- A digit character's numeric value lies between 48 and 57. -/
lemma digit_toNat_le (c : Char) (h : c.isDigit = true) :
    c.toNat ≤ 57 ∧ 48 ≤ c.toNat := by
  simp only [Char.isDigit, Bool.and_eq_true, decide_eq_true_eq] at h
  exact ⟨h.2, h.1⟩

/-- Accumulator-generalized bound for the digit-string value. -/
lemma natOfDigits_foldl_lt (cs : List Char) (h : cs.all Char.isDigit = true) :
    ∀ acc : ℕ,
      cs.foldl (fun n c => 10 * n + (c.toNat - 48)) acc <
        (acc + 1) * 10 ^ cs.length := by
  induction cs with
  | nil =>
    intro acc
    simpa using Nat.lt_succ_self acc
  | cons c rest ih =>
    intro acc
    simp only [List.all_cons, Bool.and_eq_true] at h
    have hd : c.toNat - 48 ≤ 9 := by
      have := digit_toNat_le c h.1
      omega
    have hrec := ih h.2 (10 * acc + (c.toNat - 48))
    calc (c :: rest).foldl (fun n c => 10 * n + (c.toNat - 48)) acc
        = rest.foldl (fun n c => 10 * n + (c.toNat - 48))
            (10 * acc + (c.toNat - 48)) := rfl
      _ < (10 * acc + (c.toNat - 48) + 1) * 10 ^ rest.length := hrec
      _ ≤ ((acc + 1) * 10) * 10 ^ rest.length :=
          Nat.mul_le_mul_right _ (by omega)
      _ = (acc + 1) * 10 ^ (c :: rest).length := by
          rw [List.length_cons, pow_succ]
          ring

/-- A year captured by the `(\d{1,2})/(\d{4})` full match is at most 9999
(four digit characters). -/
lemma mmSlashYyyy_year_le (cs : List Char) (mm y : ℕ)
    (h : Parser.mmSlashYyyy cs = some (mm, y)) : y ≤ 9999 := by
  simp only [Parser.mmSlashYyyy] at h
  split at h
  · split at h
    · rename_i post heq hcond
      simp only [Option.some.injEq, Prod.mk.injEq] at h
      have hy := h.2
      have hb := natOfDigits_foldl_lt post hcond.2.2.2 0
      rw [hcond.2.2.1] at hb
      unfold natOfDigits at hy
      omega
    · exact absurd h (by simp)
  · exact absurd h (by simp)

/-- C4 (counterexample): parsing the Scenario C experience block does not
yield the claimed entry, because the date line "Jan 2022 - Present" is never
removed from the block's remaining lines, so the description is not the
single-element list ["Built APIs"]. -/
theorem experience_scenario_counterexample :
    ¬ (Parser.extract_experience
        [("experience", ["Software Engineer - Acme Inc - Remote",
          "Jan 2022 - Present", "- Built APIs"])] =
      [{ title := some "Software Engineer", company := some "Acme Inc",
         location := some "Remote", start_date := some "Jan 2022",
         end_date := some "Present", duration := none,
         description := ["Built APIs"] }]) := by
  decide

/-- C4 (amended): the Scenario C block parses to the claimed title, company,
location, start and end dates, but its description retains the date line
ahead of the bullet: ["Jan 2022 - Present", "Built APIs"]. -/
theorem experience_scenario_amended :
    Parser.extract_experience
      [("experience", ["Software Engineer - Acme Inc - Remote",
        "Jan 2022 - Present", "- Built APIs"])] =
    [{ title := some "Software Engineer", company := some "Acme Inc",
       location := some "Remote", start_date := some "Jan 2022",
       end_date := some "Present", duration := none,
       description := ["Jan 2022 - Present", "Built APIs"] }] := by
  decide

/-- C5 (counterexample): the "Soft Skills:" line is skipped as a generic
heading before the bucket-switch check ever runs, so Scenario D does not
produce soft=["leadership"]. -/
theorem skills_scenario_counterexample :
    ¬ (Parser.extract_skills_generic
        [("skills", ["Technical:", "python, sql", "Soft Skills:", "leadership"])] =
      { technical := ["python", "sql"], soft := ["leadership"],
        domain := ([] : List String) }) := by
  decide

/-- C5 (amended): because "soft skills" belongs to the skipped
generic-headings set, the "Soft Skills:" label never switches the current
bucket, and "leadership" lands in the technical bucket:
technical=["python","sql","leadership"], soft=[], domain=[]. -/
theorem skills_scenario_amended :
    Parser.extract_skills_generic
      [("skills", ["Technical:", "python, sql", "Soft Skills:", "leadership"])] =
    { technical := ["python", "sql", "leadership"], soft := ([] : List String),
      domain := ([] : List String) } := by
  decide

/-- C8: parsing empty input text is total (no exception: the embedding is a
pure function) and returns the empty-but-well-formed result — every list
field empty, every optional scalar `none`, zero statistics — so downstream
scoring still runs (and, with empty skill sets, the guarded match scorer
returns 0, as proved for C1). -/
theorem empty_parse_wellformed (now : Parser.MonthDate) :
    Parser.basic_parse_fallback_with_sections "" now =
    ⟨⟨none, none, none, none, none, none, none⟩, none, ⟨[], [], []⟩, [], [],
      [], [], [], [], "", ⟨0, 0, 0, 0, 0⟩⟩ := by
  have hstat : Parser.calculate_total_experience
      (Parser.extract_experience (Parser.split_sections "")) now = 0 := by
    have hexp : Parser.extract_experience (Parser.split_sections "") = [] := by
      decide
    rw [hexp]
    simp only [Parser.calculate_total_experience, List.foldl]
    have h0 : (((0 : ℤ) : ℚ)) / 12 = (((0 : ℤ) : ℚ)) := by norm_num
    rw [h0, pyRound1_intCast]
    norm_num
  simp only [Parser.basic_parse_fallback_with_sections,
    Parser.ParsedResumeData.mk.injEq, Parser.ParseStatistics.mk.injEq]
  refine ⟨?_, ?_, ?_, ?_, ?_, ?_, ?_, ?_, ?_, ?_, ?_, ?_, ?_, ?_, ?_⟩
  · decide
  · decide
  · decide
  · decide
  · decide
  · decide
  · decide
  · decide
  · decide
  · decide
  · exact hstat
  · decide
  · decide
  · decide
  · decide

/-- C9 (counterexample): the rule-based parse is not invocation-independent.
On a resume with a "Jan 2022 - Present" experience, the experience-duration
statistic is anchored to `datetime.utcnow()`: two invocations, one with the
current month January 2024 and one with January 2025, disagree (2.0 versus
3.0 total experience years), so the two ParsedResume results are not equal
field for field. -/
theorem parse_time_dependent_counterexample :
    ¬ (Parser.basic_parse_fallback_with_sections
        "experience\nDeveloper - Acme\nJan 2022 - Present" ⟨2024, 1⟩ =
      Parser.basic_parse_fallback_with_sections
        "experience\nDeveloper - Acme\nJan 2022 - Present" ⟨2025, 1⟩) := by
  intro h
  have hexp : Parser.extract_experience (Parser.split_sections
      "experience\nDeveloper - Acme\nJan 2022 - Present") =
      [{ title := some "Developer", company := some "Acme", location := none,
         start_date := some "Jan 2022", end_date := some "Present",
         duration := none, description := ["Jan 2022 - Present"] }] := by
    decide
  have hval : ∀ (now : Parser.MonthDate),
      (Parser.basic_parse_fallback_with_sections
        "experience\nDeveloper - Acme\nJan 2022 - Present"
        now).statistics.total_experience_years =
      pyRound1 (((Parser.months_between (some ⟨2022, 1⟩) none now : ℤ) : ℚ) / 12) := by
    intro now
    have hrfl : (Parser.basic_parse_fallback_with_sections
        "experience\nDeveloper - Acme\nJan 2022 - Present"
        now).statistics.total_experience_years =
        Parser.calculate_total_experience (Parser.extract_experience
          (Parser.split_sections
            "experience\nDeveloper - Acme\nJan 2022 - Present")) now := by
      simp only [Parser.basic_parse_fallback_with_sections]
    have hentry : Parser.entryMonths
        { title := some "Developer", company := some "Acme", location := none,
          start_date := some "Jan 2022", end_date := some "Present",
          duration := none, description := ["Jan 2022 - Present"] } now =
        Except.ok (Parser.months_between (some ⟨2022, 1⟩) none now) := rfl
    rw [hrfl, hexp, calc_total_single_ok _ _ _ hentry]
  have h2 := congrArg
    (fun r => Parser.ParsedResumeData.statistics r |>.total_experience_years) h
  simp only at h2
  rw [hval ⟨2024, 1⟩, hval ⟨2025, 1⟩] at h2
  have e1 : (Parser.months_between (some ⟨2022, 1⟩) none ⟨2024, 1⟩ : ℤ) = 24 := by
    decide
  have e2 : (Parser.months_between (some ⟨2022, 1⟩) none ⟨2025, 1⟩ : ℤ) = 36 := by
    decide
  rw [e1, e2] at h2
  have v1 : (((24 : ℤ) : ℚ)) / 12 = (((2 : ℤ) : ℚ)) := by norm_num
  have v2 : (((36 : ℤ) : ℚ)) / 12 = (((3 : ℤ) : ℚ)) := by norm_num
  rw [v1, v2, pyRound1_intCast, pyRound1_intCast] at h2
  norm_num at h2

/-- C9 (amended): relative to a fixed invocation time, the rule-based parse
is a pure function, and every ParsedResume field except the
experience-duration statistic (and the unmodelled wall-clock timestamp) is
independent of the invocation time: two invocations at arbitrary times agree
on all structural fields. -/
theorem parse_structural_time_independent (text : String)
    (n1 n2 : Parser.MonthDate) :
    (Parser.basic_parse_fallback_with_sections text n1).personal_info =
      (Parser.basic_parse_fallback_with_sections text n2).personal_info ∧
    (Parser.basic_parse_fallback_with_sections text n1).summary =
      (Parser.basic_parse_fallback_with_sections text n2).summary ∧
    (Parser.basic_parse_fallback_with_sections text n1).skills =
      (Parser.basic_parse_fallback_with_sections text n2).skills ∧
    (Parser.basic_parse_fallback_with_sections text n1).experience =
      (Parser.basic_parse_fallback_with_sections text n2).experience ∧
    (Parser.basic_parse_fallback_with_sections text n1).education =
      (Parser.basic_parse_fallback_with_sections text n2).education ∧
    (Parser.basic_parse_fallback_with_sections text n1).projects =
      (Parser.basic_parse_fallback_with_sections text n2).projects ∧
    (Parser.basic_parse_fallback_with_sections text n1).certifications =
      (Parser.basic_parse_fallback_with_sections text n2).certifications ∧
    (Parser.basic_parse_fallback_with_sections text n1).languages =
      (Parser.basic_parse_fallback_with_sections text n2).languages ∧
    (Parser.basic_parse_fallback_with_sections text n1).awards =
      (Parser.basic_parse_fallback_with_sections text n2).awards ∧
    (Parser.basic_parse_fallback_with_sections text n1).raw_text =
      (Parser.basic_parse_fallback_with_sections text n2).raw_text :=
  ⟨rfl, rfl, rfl, rfl, rfl, rfl, rfl, rfl, rfl, rfl⟩

/-- C10 (counterexample): a matched year of 0000 defeats the claim's
universal clamping statement: `datetime(0, 12, 1)` raises `ValueError`, so
`_parse_month_year("13/0000")` raises instead of returning December of that
year, and `_calculate_total_experience`'s per-entry exception handler makes
such a span contribute zero months rather than its clamped duration. -/
theorem month_clamping_counterexample :
    Parser.parse_month_year "13/0000" = Except.error () ∧
    Parser.calculate_total_experience
      [{ title := none, company := none, location := none,
         start_date := some "13/0000", end_date := some "15/2021",
         duration := none, description := [] }] ⟨2024, 1⟩ = 0 := by
  constructor
  · rfl
  · exact calc_total_single_err _ _ rfl

/-- C10 (amended): for every `MM/YYYY` token whose year is at least 1 (so
that the `datetime` constructor accepts it; the four-digit year is at most
9999 automatically), a numeric month outside 1-12 is not unparsable: months
13 through 99 clamp to December of that year and month 0 to January; and a
span carrying such clamped months contributes its clamped duration
("13/2020" to "15/2021" adds 12 months, 1.0 years) rather than zero.  For a
year of 0000 the constructor raises and the per-entry handler contributes
zero months instead, per the counterexample. -/
theorem month_clamping (s : String) (mm y : ℕ) (now : Parser.MonthDate)
    (h : Parser.mmSlashYyyy (pyStrip s).toList = some (mm, y)) (hy : 1 ≤ y) :
    (13 ≤ mm → mm ≤ 99 →
      Parser.parse_month_year s = Except.ok (some ⟨(y : ℤ), 12⟩)) ∧
    (mm = 0 → Parser.parse_month_year s = Except.ok (some ⟨(y : ℤ), 1⟩)) ∧
    Parser.calculate_total_experience
      [{ title := none, company := none, location := none,
         start_date := some "13/2020", end_date := some "15/2021",
         duration := none, description := [] }] now = 1 := by
  have hs : s ≠ "" := by
    intro he
    rw [he] at h
    have hnone : Parser.mmSlashYyyy (pyStrip "").toList = none := by decide
    rw [hnone] at h
    exact Option.noConfusion h
  have hd4 : Parser.isDigits4 (pyStrip s).toList = false := by
    by_contra hne
    have hd : Parser.isDigits4 (pyStrip s).toList = true := by
      cases hbd : Parser.isDigits4 (pyStrip s).toList
      · exact absurd hbd hne
      · rfl
    have hall : (pyStrip s).toList.all Char.isDigit := by
      unfold Parser.isDigits4 at hd
      simp only [Bool.and_eq_true] at hd
      exact hd.2
    have hnil : (pyStrip s).toList.dropWhile (fun c => c != '/') = [] := by
      rw [List.dropWhile_eq_nil_iff]
      intro x hx
      have hdig := List.all_eq_true.mp hall x hx
      simp only [bne_iff_ne, ne_eq]
      intro hxe
      rw [hxe] at hdig
      exact absurd hdig (by decide)
    simp only [Parser.mmSlashYyyy] at h
    rw [hnil] at h
    simp at h
  have hy9999 : y ≤ 9999 := mmSlashYyyy_year_le _ _ _ h
  have hparse : Parser.parse_month_year s =
      (Parser.mkDatetime (y : ℤ) (max 1 (min 12 (mm : ℤ)))).map some := by
    simp only [Parser.parse_month_year]
    rw [if_neg hs, if_neg (by rw [hd4]; simp), h]
  have hyi : (1 : ℤ) ≤ (y : ℤ) := by exact_mod_cast hy
  have hyi2 : (y : ℤ) ≤ 9999 := by exact_mod_cast hy9999
  refine ⟨?_, ?_, ?_⟩
  · intro h13 h99
    rw [hparse]
    have hmin : min (12 : ℤ) (mm : ℤ) = 12 :=
      min_eq_left (by exact_mod_cast (show (12 : ℕ) ≤ mm by omega))
    have hm : max (1 : ℤ) (min 12 (mm : ℤ)) = 12 := by
      rw [hmin]
      norm_num
    rw [hm]
    simp only [Parser.mkDatetime]
    rw [if_pos ⟨hyi, hyi2, by norm_num, by norm_num⟩]
    rfl
  · intro h0
    rw [hparse, h0]
    have hm : max (1 : ℤ) (min 12 (((0 : ℕ) : ℤ))) = 1 := by norm_num
    rw [hm]
    simp only [Parser.mkDatetime]
    rw [if_pos ⟨hyi, hyi2, by norm_num, by norm_num⟩]
    rfl
  · have hok : Parser.entryMonths
        { title := none, company := none, location := none,
          start_date := some "13/2020", end_date := some "15/2021",
          duration := none, description := [] } now = Except.ok 12 := rfl
    rw [calc_total_single_ok _ _ _ hok]
    have v : (((12 : ℤ) : ℚ)) / 12 = (((1 : ℤ) : ℚ)) := by norm_num
    rw [v, pyRound1_intCast]
    norm_num

/-- Witness for `month_clamping` at the concrete date "13/2020". -/
theorem month_clamping_witness :
    (Parser.mmSlashYyyy (pyStrip "13/2020").toList = some (13, 2020) ∧
      1 ≤ 2020) ∧
    Parser.parse_month_year "13/2020" = Except.ok (some ⟨2020, 12⟩) :=
  ⟨⟨by decide, by decide⟩,
    (month_clamping "13/2020" 13 2020 ⟨2024, 1⟩ (by decide) (by decide)).1
      (by decide) (by decide)⟩

end HireMate
